import Mathlib

/-!
Verification development for the "Spiderman" multi-tariff subscription layer of the
remnawave-bedolaga-telegram-bot repository.

The Python source is shallowly embedded: pure helpers become Lean functions, the
database session becomes explicit state passing over plain data structures, and
`datetime` values become integer timestamps in seconds (one day = 86400 seconds).
Awaited database/panel calls are modelled as pure state transformers; a SQLAlchemy
`commit` is modelled as writing the pending object states back into the committed
database value, and pending (uncommitted) attribute mutations are dropped when a
function returns without committing.  Fallible panel-API calls are modelled with
`Except Unit`.  All definitions come first, all theorems afterwards.
-/

set_option maxRecDepth 10000

namespace Spiderman

/-! ## Python string primitives

`str.strip()` / `str.lower()` are modelled at the character-list level (for the
ASCII alphabet the code and spec actually exercise) so that every definition
reduces in the kernel. -/

/-- Characters removed by Python's default `str.strip()`. -/
def pyIsSpace (c : Char) : Bool :=
  c = ' ' ∨ c = '\t' ∨ c = '\n' ∨ c = '\r' ∨ c = '\x0b' ∨ c = '\x0c'

/-- Python `str.strip()`. -/
def pyStrip (s : String) : String :=
  String.mk (((s.data.dropWhile pyIsSpace).reverse.dropWhile pyIsSpace).reverse)

/-- Python `str.lower()` (ASCII case folding). -/
def pyLower (s : String) : String :=
  String.mk (s.data.map Char.toLower)

/-! ## app/spiderman/tariff_context.py -/

/-- `TariffCode.STANDARD.value` -/
def TariffCode.STANDARD : String := "standard"

/-- `TariffCode.WHITE.value` -/
def TariffCode.WHITE : String := "white"

/-- `DEFAULT_TARIFF_CODE = TariffCode.STANDARD.value` -/
def DEFAULT_TARIFF_CODE : String := TariffCode.STANDARD

/-- `normalize_tariff_code` from app/spiderman/tariff_context.py.  The ambient
context variable `_CURRENT_TARIFF_CODE` (read by `get_current_tariff_code`) is
passed explicitly as `ambient`.  A Python `None` argument is `none`; any other
argument reaches the function as its string form (`str(value)`), and the Python
truthiness test `if not value` is true exactly for `None` and the empty string. -/
def normalize_tariff_code (ambient : String) (value : Option String) : String :=
  match value with
  | none => ambient
  | some s =>
      if s = "" then ambient
      else
        let normalized := pyLower (pyStrip s)
        if normalized = TariffCode.WHITE ∨ normalized = "w" ∨ normalized = "white" then
          TariffCode.WHITE
        else if normalized = TariffCode.STANDARD ∨ normalized = "s" ∨ normalized = "standard" then
          TariffCode.STANDARD
        else
          DEFAULT_TARIFF_CODE

/-- The ambient default starts as `DEFAULT_TARIFF_CODE` and is only ever set by
`use_tariff_code`, which stores `normalize_tariff_code` of its argument, so it is
always one of the two codes. -/
def validAmbient (ambient : String) : Prop :=
  ambient = TariffCode.STANDARD ∨ ambient = TariffCode.WHITE

/-! ## app/services/contests/attempt_service.py -/

/-- The two `ContestRound` columns read and written by the winner-claiming step. -/
structure ContestRound where
  winners_count : Nat
  max_winners : Nat
  deriving DecidableEq, Repr

/-- `ContestAttemptService._atomic_winner_check`: on an incorrect answer returns
`false` immediately; otherwise, under the `SELECT ... FOR UPDATE` row lock, it
rechecks `winners_count >= max_winners`, and only below the cap increments the
counter (committing) and reports a win.  The row lock serializes concurrent
invocations for the same round, so a set of concurrent attempts is modelled as a
sequence of these atomic steps. -/
def atomic_winner_check (round : ContestRound) (is_winner : Bool) :
    Bool × ContestRound :=
  if !is_winner then (false, round)
  else if round.winners_count ≥ round.max_winners then (false, round)
  else (true, { round with winners_count := round.winners_count + 1 })

/-- Serialized execution of one `_atomic_winner_check` per attempt (each attempt
comes from a distinct user, so each runs the step exactly once; `process_button_attempt`
then records the returned flag as the attempt's `is_winner`); returns the outcome
recorded for each attempt and the final round row. -/
def runAttempts (round : ContestRound) (attempts : List Bool) :
    List Bool × ContestRound :=
  match attempts with
  | [] => ([], round)
  | a :: rest =>
      let step := atomic_winner_check round a
      let tail := runAttempts step.2 rest
      (step.1 :: tail.1, tail.2)

/-- Python `re.search(r"\d+", s)` restricted to ASCII digits: the first maximal
run of decimal digits of the string, if any. -/
def firstDigitRun : List Char → Option (List Char)
  | [] => none
  | c :: rest =>
      if c.isDigit then some (c :: rest.takeWhile Char.isDigit)
      else firstDigitRun rest

/-- Python `int` of a nonempty decimal digit string. -/
def digitsToNat (ds : List Char) : Nat :=
  ds.foldl (fun n c => 10 * n + (c.toNat - 48)) 0

/-- `ContestAttemptService._parse_positive_int`: empty input yields the default;
otherwise the first digit run is parsed and returned when strictly positive,
falling back to the default. -/
def parse_positive_int (value : String) (default : Nat) : Nat :=
  if value = "" then default
  else
    match firstDigitRun value.data with
    | none => default
    | some ds =>
        let parsed := digitsToNat ds
        if parsed > 0 then parsed else default

/-- The number of days the "days" branch of `ContestAttemptService._award_prize`
passes to `extend_subscription` (which, modelled from the spec, advances the
standard subscription's end date by that many days): the template's
`prize_value or "1"` is run through `_parse_positive_int(..., default=1)`. -/
def award_days_extension (prize_value : Option String) : Nat :=
  let pv :=
    match prize_value with
    | none => "1"
    | some s => if s = "" then "1" else s
  parse_positive_int pv 1

/-! ## Time and data model

`datetime` values are integer timestamps in seconds; `timedelta(days=n)` is
`n * 86400`. -/

def secondsPerDay : Int := 86400

/-- `datetime(2099, 1, 1)`, the `_get_white_unlimited_end_date()` sentinel, as a
seconds timestamp (far in the future of every `now` used below). -/
def whiteUnlimitedEndDate : Int := 4070908800

/-- `SubscriptionStatus.ACTIVE.value` -/
def SubscriptionStatus.ACTIVE : String := "active"

/-- `SubscriptionStatus.PENDING.value` -/
def SubscriptionStatus.PENDING : String := "pending"

/-- `SubscriptionStatus.EXPIRED.value` -/
def SubscriptionStatus.EXPIRED : String := "expired"

/-- The Subscription row (app/database/models.py), restricted to the columns the
patch layer reads or writes.  `traffic_used_gb` is kept integral (the claims
never exercise fractional usage). -/
structure Subscription where
  id : Int
  user_id : Int
  tariff_code : String
  status : String
  is_trial : Bool
  start_date : Int
  end_date : Int
  traffic_limit_gb : Int
  traffic_used_gb : Int
  purchased_traffic_gb : Int
  device_limit : Int
  connected_squads : List String
  remnawave_uuid : Option String
  remnawave_short_uuid : Option String
  subscription_url : String
  subscription_crypto_link : String
  autopay_enabled : Bool
  autopay_days_before : Int
  created_at : Int
  updated_at : Int
  deriving DecidableEq, Repr

/-- The User row, restricted to the fields the embedded functions touch. -/
structure DbUser where
  id : Int
  telegram_id : Int
  full_name : String
  username : Option String
  balance_kopeks : Int
  remnawave_uuid : Option String
  restriction_subscription : Bool
  had_paid_subscription : Bool
  deriving DecidableEq, Repr

/-- `TransactionType` members used by the purchase flow. -/
inductive TransactionType where
  | deposit
  | withdrawal
  | subscription_payment
  deriving DecidableEq, Repr

/-- A ledger Transaction row (display strings are not modelled). -/
structure Transaction where
  user_id : Int
  txType : TransactionType
  amount_kopeks : Int
  deriving DecidableEq, Repr

/-- A RemnaWave panel user as returned by the panel API client. -/
structure PanelUser where
  uuid : String
  short_uuid : String
  subscription_url : String
  happ_crypto_link : String
  username : String
  tag : Option String
  telegram_id : Int
  deriving DecidableEq, Repr

/-- The keyword payload of `api.update_user(...)` / `api.create_user(...)` as
assembled by the patched sync functions (`username`/`telegram_id` are present
only for create). -/
structure PanelPayload where
  uuid : Option String
  username : Option String
  telegram_id : Option Int
  status_active : Bool
  expire_at : Int
  traffic_limit_bytes : Int
  traffic_limit_strategy : String
  description : String
  active_internal_squads : List String
  tag : Option String
  hwid_device_limit : Option Int
  deriving DecidableEq, Repr

/-- The panel API client (app/external/remnawave_api.py, out of scope): each
call is asynchronous HTTP and may raise (`Except.error`); a missing record is
`Except.ok none`. -/
structure PanelApi where
  get_user_by_uuid : String → Except Unit (Option PanelUser)
  get_user_by_username : String → Except Unit (Option PanelUser)
  get_user_by_telegram_id : Int → Except Unit (List PanelUser)
  update_user : PanelPayload → Except Unit PanelUser
  create_user : PanelPayload → Except Unit PanelUser
  reset_user_traffic : String → Except Unit Unit

/-- Read-only configuration consumed by the embedded functions (app/config.py is
out of scope; its getters become fields, and its formatting helpers become
opaque function fields, per the spec's §6 configuration contract). -/
structure Settings where
  PERIOD_PRICES : Int → Int
  DEFAULT_DEVICE_LIMIT : Int
  PRICE_PER_DEVICE : Int
  devices_selection_enabled : Bool
  disabled_mode_device_limit : Option Int
  get_traffic_price : Int → Int
  TRIAL_ADD_REMAINING_DAYS_TO_PAID : Bool
  RESET_TRAFFIC_ON_PAYMENT : Bool
  available_periods : List Int
  autopay_enabled_by_default : Bool
  DEFAULT_AUTOPAY_DAYS_BEFORE : Int
  WHITE_TARIFF_TAG : Option String
  STANDARD_TARIFF_TAG : Option String
  WHITE_TARIFF_SUFFIX : Option String
  trial_user_tag : Option String
  paid_user_tag : Option String
  format_remnawave_username : String → Option String → Int → String
  format_remnawave_user_description : String → Option String → Int → String
  traffic_reset_strategy : String
  resolve_hwid_device_limit : Subscription → Option Int

/-- Python truthiness of an optional string (`None` and `""` are falsy). -/
def optTruthy (v : Option String) : Bool :=
  match v with
  | none => false
  | some s => s ≠ ""

/-- Python `str.upper()` (ASCII case folding). -/
def pyUpper (s : String) : String :=
  String.mk (s.data.map Char.toUpper)

/-- Python `str.strip(chars)`: remove the given characters from both ends. -/
def stripChars (cs : List Char) (l : List Char) : List Char :=
  ((l.dropWhile cs.contains).reverse.dropWhile cs.contains).reverse

/-- The character class `[0-9A-Za-z._-]` of `_sanitize_username`. -/
def usernameAllowed (c : Char) : Bool :=
  (c ≥ '0' ∧ c ≤ '9') ∨ (c ≥ 'A' ∧ c ≤ 'Z') ∨ (c ≥ 'a' ∧ c ≤ 'z') ∨
    c = '.' ∨ c = '_' ∨ c = '-'

/-- `re.sub(r"[^0-9A-Za-z._-]+", "_", value)`: each maximal run of characters
outside the class becomes a single underscore. -/
def replaceDisallowedRuns : List Char → List Char
  | [] => []
  | c :: rest =>
      if usernameAllowed c then c :: replaceDisallowedRuns rest
      else '_' :: replaceDisallowedRuns (rest.dropWhile (fun d => !usernameAllowed d))
  termination_by l => l.length
  decreasing_by
    · simp
    · have h : (rest.dropWhile (fun d => !usernameAllowed d)).length ≤ rest.length :=
        (List.dropWhile_sublist _).length_le
      simp
      omega

/-- `re.sub(r"_+", "_", ...)`: collapse each run of underscores to one. -/
def collapseUnderscoreRuns : List Char → List Char
  | [] => []
  | c :: rest =>
      if c = '_' then '_' :: collapseUnderscoreRuns (rest.dropWhile (· = '_'))
      else c :: collapseUnderscoreRuns rest
  termination_by l => l.length
  decreasing_by
    · have h : (rest.dropWhile (· = '_')).length ≤ rest.length :=
        (List.dropWhile_sublist _).length_le
      simp
      omega
    · simp

/-- `_sanitize_username` from app/spiderman/remnawave_patch.py. -/
def sanitize_username (value : String) (preserve_leading_underscore : Bool) : String :=
  let step := collapseUnderscoreRuns (replaceDisallowedRuns value.data)
  if preserve_leading_underscore then String.mk (stripChars ['.', '-'] step)
  else String.mk (stripChars ['.', '_', '-'] step)

/-- `_get_white_suffix` from app/spiderman/remnawave_patch.py. -/
def get_white_suffix (s : Settings) : String :=
  let raw0 := if optTruthy s.WHITE_TARIFF_SUFFIX then s.WHITE_TARIFF_SUFFIX.getD "_w" else "_w"
  let raw1 := pyStrip raw0
  let raw2 := if raw1 = "" then "_w" else raw1
  let sanitized := sanitize_username raw2 true
  if sanitized = "" then "_w"
  else
    let sanitized2 :=
      match sanitized.data with
      | '_' :: _ => sanitized
      | l => String.mk ('_' :: l.dropWhile (fun c => c = '.' ∨ c = '_' ∨ c = '-'))
    if sanitized2 = "_" then "_w" else sanitized2

/-- `_build_remnawave_username` from app/spiderman/remnawave_patch.py (the base
username format lives in config, consumed as `Settings.format_remnawave_username`). -/
def build_remnawave_username (s : Settings) (user : DbUser) (tariff_code : String) : String :=
  let base := s.format_remnawave_username user.full_name user.username user.telegram_id
  if tariff_code ≠ TariffCode.WHITE then base
  else
    let suffix := get_white_suffix s
    let candidate :=
      if (pyLower suffix).data.isSuffixOf (pyLower base).data then base
      else base ++ suffix
    let candidate2 := sanitize_username candidate false
    let candidate3 := if candidate2 = "" then base else candidate2
    String.mk (candidate3.data.take 64)

/-- `_normalize_tag`: `settings._normalize_user_tag` is out-of-scope config code;
modelled from the spec as its documented fallback `str(value).strip().upper() or None`. -/
def normalizeTag (v : Option String) : Option String :=
  match v with
  | none => none
  | some s =>
      let cleaned := pyUpper (pyStrip s)
      if cleaned = "" then none else some cleaned

/-- `(candidate.tag or "").strip().upper()` -/
def candidateTag (c : PanelUser) : String :=
  pyUpper (pyStrip (c.tag.getD ""))

/-- `_resolve_user_tag` from app/spiderman/remnawave_patch.py. -/
def resolve_user_tag (s : Settings) (sub : Subscription) (tariff_code : String) :
    Option String :=
  if sub.is_trial then s.trial_user_tag
  else if tariff_code = TariffCode.WHITE then
    match normalizeTag s.WHITE_TARIFF_TAG with
    | some t => some t
    | none => s.paid_user_tag
  else
    match normalizeTag s.STANDARD_TARIFF_TAG with
    | some t => some t
    | none => s.paid_user_tag

/-- `_resolve_subscription_uuid` from app/spiderman/remnawave_patch.py: prefer
the subscription's own panel identity; for the standard tariff fall back to the
user's legacy field. -/
def resolve_subscription_uuid (sub : Subscription) (user : Option DbUser)
    (tariff_code : String) : Option String :=
  match sub.remnawave_uuid with
  | some u => some u
  | none =>
      if tariff_code = TariffCode.STANDARD then
        match user with
        | some u => u.remnawave_uuid
        | none => none
      else none

/-- `_resolve_hwid_limit` from app/spiderman/remnawave_patch.py. -/
def resolve_hwid_limit (s : Settings) (sub : Subscription) (tariff_code : String) :
    Option Int :=
  if tariff_code = TariffCode.WHITE then some 0
  else s.resolve_hwid_device_limit sub

/-- `_resolve_traffic_limit_strategy` from app/spiderman/remnawave_patch.py
(`TrafficLimitStrategy.NO_RESET` for white; the globally configured strategy
otherwise). -/
def resolve_traffic_limit_strategy (s : Settings) (tariff_code : String) : String :=
  if tariff_code = TariffCode.WHITE then "NO_RESET"
  else s.traffic_reset_strategy

/-- `SubscriptionService._gb_to_bytes`, modelled from the spec: GB→bytes with
0 staying 0 (unlimited). -/
def gb_to_bytes (gb : Int) : Int := gb * 1073741824

/-- The single-candidate acceptance step ending `_pick_panel_user_by_username`. -/
def pickSingleCandidate (s : Settings) (candidates : List PanelUser) : Option PanelUser :=
  match candidates with
  | [c] =>
      let white_tag := normalizeTag s.WHITE_TARIFF_TAG
      let suffix := pyLower (get_white_suffix s)
      if white_tag = some (candidateTag c) then none
      else if c.username ≠ "" ∧ suffix ≠ "" ∧ suffix.data.isSuffixOf (pyLower c.username).data then
        none
      else some c
  | _ => none

/-- `_pick_panel_user_by_username` from app/spiderman/remnawave_patch.py. -/
def pick_panel_user_by_username (s : Settings) (candidates : List PanelUser)
    (username : String) (tariff_code : String) : Option PanelUser :=
  if candidates = [] then none
  else
    match candidates.find? (fun c => c.username = username) with
    | some c => some c
    | none =>
        if tariff_code = TariffCode.WHITE then
          let bySuffix :=
            let suffix := pyLower (get_white_suffix s)
            candidates.find? (fun c => c.username ≠ "" ∧ suffix.data.isSuffixOf (pyLower c.username).data)
          match normalizeTag s.WHITE_TARIFF_TAG with
          | some wt =>
              match candidates.find? (fun c => candidateTag c = wt) with
              | some c => some c
              | none => bySuffix
          | none => bySuffix
        else
          let afterTag :=
            match normalizeTag s.STANDARD_TARIFF_TAG with
            | some st => candidates.find? (fun c => candidateTag c = st)
            | none => none
          match afterTag with
          | some c => some c
          | none => pickSingleCandidate s candidates

/-! ## Session state -/

/-- The purchase wizard's per-user FSM draft (`await state.get_data()`), as the
dictionary keys `confirm_purchase` reads.  `none` models an absent key (the
stored values are integers, lists, or strings). -/
structure DraftData where
  tariff_code : Option String
  period_days : Option Int
  months_in_period : Option Int
  countries : List String
  server_prices_for_period : List Int
  total_servers_price : Option Int
  servers_price_per_month : Option Int
  servers_discounted_price_per_month : Option Int
  servers_discount_total : Option Int
  servers_discount_percent : Option Int
  devices : Option Int
  devices_price_per_month : Option Int
  devices_discount_percent : Option Int
  devices_discounted_price_per_month : Option Int
  devices_discount_total : Option Int
  total_devices_price : Option Int
  final_traffic_gb : Option Int
  traffic_gb : Option Int
  traffic_price_per_month : Option Int
  traffic_discount_percent : Option Int
  traffic_discounted_price_per_month : Option Int
  traffic_discount_total : Option Int
  total_traffic_price : Option Int
  total_price : Option Int
  promo_offer_discount_value : Option Int
  total_price_before_promo_offer : Option Int
  deriving DecidableEq, Repr

/-- The saved-cart payload built on insufficient balance:
`{**data, "saved_cart": True, "missing_amount": ..., "return_to_cart": True,
"user_id": db_user.id}`. -/
structure CartData where
  data : DraftData
  missing_amount : Int
  user_id : Int
  deriving DecidableEq, Repr

/-- The committed database state (single-user slice) plus the persisted
session-storage services (`user_cart_service`, checkout drafts), which the spec
treats as persisted state keyed by user id. -/
structure Db where
  user : DbUser
  subscriptions : List Subscription
  transactions : List Transaction
  conversions : Nat
  savedCarts : List (Int × CartData)
  checkoutDrafts : List (Int × DraftData)
  serverUserCounts : List (Int × Int)
  subscription_servers : List (Int × Int × Int)
  deriving DecidableEq, Repr

/-- ORM lookup of a subscription row by primary key. -/
def findById (subs : List Subscription) (id : Int) : Option Subscription :=
  subs.find? (fun r => r.id = id)

/-- Committing a mutated ORM row: every row with its id takes the new state. -/
def replaceById (subs : List Subscription) (sub : Subscription) : List Subscription :=
  subs.map (fun r => if r.id = sub.id then sub else r)

/-- `await db.commit()` with pending states `sub` and `user` in the session. -/
def commitSubUser (db : Db) (sub : Subscription) (user : DbUser) : Db :=
  { db with subscriptions := replaceById db.subscriptions sub, user := user }

/-! ## app/spiderman/remnawave_patch.py — panel synchronization -/

/-- `validate_and_clean_subscription`: backfills the standard-tariff identity
from the user's legacy field, probes the panel for the resolved UUID, and wipes
the subscription's panel-identity fields (committing) when the UUID is dangling,
resolves to a foreign Telegram id, or the probe itself errors; commits the
backfill alone otherwise.  Returns `false` only on an unrecovered exception
(unreachable in this model, since the panel probe's errors are caught inside). -/
def validate_and_clean_subscription (api : PanelApi) (ambient : String)
    (db : Db) (subId : Int) : Bool × Db :=
  match findById db.subscriptions subId with
  | none => (false, db)
  | some sub0 =>
      let user := db.user
      let tariff_code := normalize_tariff_code ambient (some sub0.tariff_code)
      let uuid0 := resolve_subscription_uuid sub0 (some user) tariff_code
      let backfill : Bool := tariff_code = TariffCode.STANDARD ∧
        optTruthy user.remnawave_uuid ∧ sub0.remnawave_uuid ≠ user.remnawave_uuid
      let sub1 := if backfill then { sub0 with remnawave_uuid := user.remnawave_uuid } else sub0
      let ruuid := if backfill then user.remnawave_uuid else uuid0
      let cleanupFromProbe : Bool :=
        match ruuid with
        | some u =>
            match api.get_user_by_uuid u with
            | .error _ => true
            | .ok none => true
            | .ok (some pu) => pu.telegram_id ≠ user.telegram_id
        | none => false
      let needs_cleanup : Bool :=
        cleanupFromProbe || (optTruthy sub1.remnawave_short_uuid && ruuid.isNone)
      if needs_cleanup then
        let sub2 := { sub1 with
          remnawave_uuid := none
          remnawave_short_uuid := none
          subscription_url := ""
          subscription_crypto_link := ""
          connected_squads := ([] : List String) }
        let user2 :=
          if tariff_code = TariffCode.STANDARD then { user with remnawave_uuid := none }
          else user
        (true, commitSubUser db sub2 user2)
      else if backfill then (true, commitSubUser db sub1 user)
      else (true, db)

/-- The shared panel payload of the patched create/update sync calls. -/
def syncPayload (s : Settings) (user : DbUser) (sub : Subscription)
    (tariff_code : String) (uuid : Option String) (username : Option String)
    (telegram_id : Option Int) (status_active : Bool) (tag : Option String)
    (hwid : Option Int) : PanelPayload :=
  { uuid := uuid
    username := username
    telegram_id := telegram_id
    status_active := status_active
    expire_at := sub.end_date
    traffic_limit_bytes := gb_to_bytes sub.traffic_limit_gb
    traffic_limit_strategy := resolve_traffic_limit_strategy s tariff_code
    description := s.format_remnawave_user_description user.full_name user.username user.telegram_id
    active_internal_squads := sub.connected_squads
    tag := tag
    hwid_device_limit := hwid }

/-- The identity-resolution sequence of `create_remnawave_user` (source lines
234–254): probe the resolved UUID when present, then the constructed username,
then the Telegram-id listing with tariff disambiguation; a lookup exception
aborts the whole attempt. -/
def create_resolve_panel_user (s : Settings) (api : PanelApi) (user : DbUser)
    (sub1 : Subscription) (tariff_code username : String) :
    Except Unit (Option PanelUser) :=
  let step1 : Except Unit (Option PanelUser) :=
    match resolve_subscription_uuid sub1 (some user) tariff_code with
    | some u => api.get_user_by_uuid u
    | none => .ok none
  match step1 with
  | .error _ => .error ()
  | .ok (some pu) => .ok (some pu)
  | .ok none =>
      match api.get_user_by_username username with
      | .error _ => .error ()
      | .ok (some pu) => .ok (some pu)
      | .ok none =>
          match api.get_user_by_telegram_id user.telegram_id with
          | .error _ => .error ()
          | .ok lst => .ok (pick_panel_user_by_username s lst username tariff_code)

/-- The panel mutation `create_remnawave_user` issues (source lines 256–309):
an update when a panel user was found, a create with username and Telegram id
otherwise. -/
def create_panel_call (s : Settings) (api : PanelApi) (user : DbUser)
    (sub1 : Subscription) (tariff_code username : String) (user_tag : Option String)
    (hwid_limit : Option Int) (found : Option PanelUser) : Except Unit PanelUser :=
  match found with
  | some pu =>
      api.update_user (syncPayload s user sub1 tariff_code
        (some pu.uuid) none none true user_tag hwid_limit)
  | none =>
      api.create_user (syncPayload s user sub1 tariff_code
        none (some username) (some user.telegram_id) true user_tag hwid_limit)

/-- `create_remnawave_user` (patched onto `SubscriptionService`): validates and
cleans the subscription first, resolves the panel identity (own UUID → exact
username → Telegram-id listing with tariff disambiguation), then updates the
panel user if found or creates one otherwise, optionally resets traffic, and
only then persists the returned identity onto the subscription (and, for the
standard tariff, the user's legacy field) and commits.  Any panel-API error or
unexpected exception yields `none` without raising. -/
def create_remnawave_user (s : Settings) (api : PanelApi) (ambient : String)
    (reset_traffic : Bool) (db : Db) (subId : Int) : Option PanelUser × Db :=
  match findById db.subscriptions subId with
  | none => (none, db)
  | some sub0 =>
      if db.user.id ≠ sub0.user_id then (none, db)
      else
        match validate_and_clean_subscription api ambient db subId with
        | (false, db0) => (none, db0)
        | (true, db0) =>
            match findById db0.subscriptions subId with
            | none => (none, db0)
            | some sub1 =>
                let user := db0.user
                let tariff_code := normalize_tariff_code ambient (some sub1.tariff_code)
                let user_tag := resolve_user_tag s sub1 tariff_code
                let username := build_remnawave_username s user tariff_code
                let hwid_limit := resolve_hwid_limit s sub1 tariff_code
                match create_resolve_panel_user s api user sub1 tariff_code username with
                | .error _ => (none, db0)
                | .ok r3 =>
                    match create_panel_call s api user sub1 tariff_code username
                        user_tag hwid_limit r3 with
                    | .error _ => (none, db0)
                    | .ok updated_user =>
                        match (if reset_traffic then
                            api.reset_user_traffic updated_user.uuid
                          else Except.ok ()) with
                        | .error _ => (none, db0)
                        | .ok _ =>
                            let sub2 := { sub1 with
                              remnawave_uuid := some updated_user.uuid,
                              remnawave_short_uuid := some updated_user.short_uuid,
                              subscription_url := updated_user.subscription_url,
                              subscription_crypto_link := updated_user.happ_crypto_link }
                            let user2 :=
                              if tariff_code = TariffCode.STANDARD then
                                { user with remnawave_uuid := some updated_user.uuid }
                              else user
                            (some updated_user, commitSubUser db0 sub2 user2)

/-- The identity-resolution prefix of `update_remnawave_user` (source lines
353–377): use the resolved UUID when present; otherwise look the panel user up
by constructed username, then by Telegram id with tariff disambiguation,
recording a found identity on the pending subscription (and the user's legacy
field for the standard tariff); `.ok none` is the "UUID not found" early return
and `.error` an exception from a lookup. -/
def update_resolve_identity (s : Settings) (api : PanelApi) (user : DbUser)
    (sub0 : Subscription) (tariff_code : String) :
    Except Unit (Option (String × Subscription × DbUser)) :=
  match resolve_subscription_uuid sub0 (some user) tariff_code with
  | some u => .ok (some (u, sub0, user))
  | none =>
      let username := build_remnawave_username s user tariff_code
      let lookup : Except Unit (Option PanelUser) :=
        match api.get_user_by_username username with
        | .error _ => .error ()
        | .ok (some pu) => .ok (some pu)
        | .ok none =>
            match api.get_user_by_telegram_id user.telegram_id with
            | .error _ => .error ()
            | .ok lst => .ok (pick_panel_user_by_username s lst username tariff_code)
      match lookup with
      | .error _ => .error ()
      | .ok none => .ok none
      | .ok (some pu) =>
          let sub' := { sub0 with remnawave_uuid := some pu.uuid }
          let user' :=
            if tariff_code = TariffCode.STANDARD then
              { user with remnawave_uuid := some pu.uuid }
            else user
          .ok (some (pu.uuid, sub', user'))

/-- The expiry demotion inside `update_remnawave_user` (source lines 385–396):
an active subscription whose end date has elapsed becomes expired. -/
def demotedSub (now : Int) (sub1 : Subscription) : Subscription :=
  if sub1.status = SubscriptionStatus.ACTIVE ∧ sub1.end_date ≤ now then
    { sub1 with status := SubscriptionStatus.EXPIRED, updated_at := now }
  else sub1

/-- The panel payload `update_remnawave_user` assembles (source lines 398–419),
built over the possibly-demoted subscription state. -/
def update_sync_payload (s : Settings) (now : Int) (tariff_code ruuid : String)
    (sub1 : Subscription) (user1 : DbUser) : PanelPayload :=
  let is_actually_active : Bool :=
    sub1.status = SubscriptionStatus.ACTIVE ∧ now < sub1.end_date
  let sub2 := demotedSub now sub1
  syncPayload s user1 sub2 tariff_code (some ruuid) none none is_actually_active
    (resolve_user_tag s sub2 tariff_code) (resolve_hwid_limit s sub2 tariff_code)

/-- The tail of `update_remnawave_user` after identity resolution (source lines
379–441): demote an active-but-elapsed subscription to expired with an
immediate commit, then issue the panel update, optionally reset traffic, and
persist the returned links with a final commit. -/
def update_remnawave_sync (s : Settings) (api : PanelApi) (now : Int)
    (reset_traffic : Bool) (db : Db) (tariff_code ruuid : String)
    (sub1 : Subscription) (user1 : DbUser) : Option PanelUser × Db :=
  let sub2 := demotedSub now sub1
  let db1 :=
    if sub1.status = SubscriptionStatus.ACTIVE ∧ sub1.end_date ≤ now then
      commitSubUser db sub2 user1
    else db
  match api.update_user (update_sync_payload s now tariff_code ruuid sub1 user1) with
  | .error _ => (none, db1)
  | .ok updated_user =>
      match (if reset_traffic then api.reset_user_traffic ruuid else Except.ok ()) with
      | .error _ => (none, db1)
      | .ok _ =>
          let sub3 := { sub2 with
            subscription_url := updated_user.subscription_url,
            subscription_crypto_link := updated_user.happ_crypto_link }
          (some updated_user, commitSubUser db1 sub3 user1)

/-- `update_remnawave_user` (patched onto `SubscriptionService`): resolves the
panel UUID (falling back to username / Telegram-id lookups, recording a found
identity on the pending objects), demotes an active-but-elapsed subscription to
expired with an immediate commit, then issues the panel update, optionally
resets traffic, persists the returned links and commits.  Any panel-API error or
unexpected exception yields `none` without raising. -/
def update_remnawave_user (s : Settings) (api : PanelApi) (ambient : String)
    (now : Int) (reset_traffic : Bool) (db : Db) (subId : Int) : Option PanelUser × Db :=
  match findById db.subscriptions subId with
  | none => (none, db)
  | some sub0 =>
      if db.user.id ≠ sub0.user_id then (none, db)
      else
        let user := db.user
        let tariff_code := normalize_tariff_code ambient (some sub0.tariff_code)
        match update_resolve_identity s api user sub0 tariff_code with
        | .error _ => (none, db)
        | .ok none => (none, db)
        | .ok (some (ruuid, sub1, user1)) =>
            update_remnawave_sync s api now reset_traffic db tariff_code ruuid sub1 user1

/-! ## app/spiderman/subscription_crud_patch.py — subscription repository -/

/-- Modelled from the spec: `check_and_update_subscription_status`
(app/database/crud/subscription.py, outside the patch layer) — the
status-consistency check triggered by `get_subscription_by_user_id`: an
"active" row whose end date has passed is demoted to "expired" and committed. -/
def check_and_update_subscription_status (now : Int) (sub : Subscription) : Subscription :=
  if sub.status = SubscriptionStatus.ACTIVE ∧ sub.end_date ≤ now then
    { sub with status := SubscriptionStatus.EXPIRED }
  else sub

/-- Rows matching a (user_id, tariff) key. -/
def subsForKey (subs : List Subscription) (user_id : Int) (tc : String) :
    List Subscription :=
  subs.filter (fun r => r.user_id = user_id ∧ r.tariff_code = tc)

/-- `get_subscription_by_user_id` (patched): select by (user_id, normalized
tariff) ordered by `created_at` descending with limit 1, then run the
status-consistency check on the returned row, committing any demotion. -/
def get_subscription_by_user_id (now : Int) (subs : List Subscription)
    (user_id : Int) (ambient : String) (tariff_code : Option String) :
    Option Subscription × List Subscription :=
  let tc := normalize_tariff_code ambient tariff_code
  match (subsForKey subs user_id tc).argmax (fun r => r.created_at) with
  | none => (none, subs)
  | some r =>
      let r' := check_and_update_subscription_status now r
      (some r', replaceById subs r')

/-- `create_paid_subscription` (patched), as invoked by `confirm_purchase` with
`update_server_counters=False` (so the server-counter side branch is skipped):
inserts a fresh active paid row. -/
def create_paid_subscription (s : Settings) (now : Int) (subs : List Subscription)
    (user_id duration_days traffic_limit_gb : Int) (device_limit : Option Int)
    (connected_squads : List String) (ambient : String) (tariff_code : Option String)
    (newId : Int) : Subscription × List Subscription :=
  let tc := normalize_tariff_code ambient tariff_code
  let sub : Subscription := {
    id := newId
    user_id := user_id
    tariff_code := tc
    status := SubscriptionStatus.ACTIVE
    is_trial := false
    start_date := now
    end_date := now + duration_days * secondsPerDay
    traffic_limit_gb := traffic_limit_gb
    traffic_used_gb := 0
    purchased_traffic_gb := 0
    device_limit := device_limit.getD s.DEFAULT_DEVICE_LIMIT
    connected_squads := connected_squads
    remnawave_uuid := none
    remnawave_short_uuid := none
    subscription_url := ""
    subscription_crypto_link := ""
    autopay_enabled := s.autopay_enabled_by_default
    autopay_days_before := s.DEFAULT_AUTOPAY_DAYS_BEFORE
    created_at := now
    updated_at := now }
  (sub, subs ++ [sub])

/-- `create_pending_subscription` (patched): when a row for (user_id, tariff)
exists and is currently active with a future end date, return it untouched;
when it exists otherwise, overwrite it in place as a pending row; only when no
row exists insert a new pending row. -/
def create_pending_subscription (s : Settings) (now : Int) (subs : List Subscription)
    (user_id duration_days traffic_limit_gb device_limit : Int)
    (connected_squads : List String) (ambient : String) (tariff_code : Option String)
    (newId : Int) : Subscription × List Subscription :=
  let end_date := now + duration_days * secondsPerDay
  let tc := normalize_tariff_code ambient tariff_code
  match get_subscription_by_user_id now subs user_id ambient (some tc) with
  | (some existing, subs1) =>
      if existing.status = SubscriptionStatus.ACTIVE ∧ now < existing.end_date then
        (existing, subs1)
      else
        let updated := { existing with
          status := SubscriptionStatus.PENDING
          is_trial := false
          start_date := now
          end_date := end_date
          traffic_limit_gb := traffic_limit_gb
          device_limit := device_limit
          connected_squads := connected_squads
          traffic_used_gb := 0
          updated_at := now }
        (updated, replaceById subs1 updated)
  | (none, subs1) =>
      let created : Subscription := {
        id := newId
        user_id := user_id
        tariff_code := tc
        status := SubscriptionStatus.PENDING
        is_trial := false
        start_date := now
        end_date := end_date
        traffic_limit_gb := traffic_limit_gb
        traffic_used_gb := 0
        purchased_traffic_gb := 0
        device_limit := device_limit
        connected_squads := connected_squads
        remnawave_uuid := none
        remnawave_short_uuid := none
        subscription_url := ""
        subscription_crypto_link := ""
        autopay_enabled := s.autopay_enabled_by_default
        autopay_days_before := s.DEFAULT_AUTOPAY_DAYS_BEFORE
        created_at := now
        updated_at := now }
      (created, subs1 ++ [created])

/-! ## Out-of-scope collaborators of the purchase flow, modelled from the spec -/

/-- Modelled from the spec: `apply_percentage_discount`
(app/utils/pricing_utils.py, outside the patch-layer sources) — returns
`(discounted_price, discount_amount)` for an integer percentage. -/
def apply_percentage_discount (price : Int) (percent : Int) : Int × Int :=
  let discount := price * percent / 100
  (price - discount, discount)

/-- Modelled from the spec: `calculate_months_from_days`
(app/utils/pricing_utils.py) — the number of billed 30-day months in a period,
at least one. -/
def calculate_months_from_days (days : Int) : Int :=
  max 1 (days / 30)

/-- `_get_default_period_days` from app/spiderman/subscription_purchase_patch.py. -/
def get_default_period_days (s : Settings) : Int :=
  match s.available_periods with
  | [] => 30
  | p :: _ => p

/-- Modelled from the spec: `subtract_user_balance` (app/database/crud/user.py)
— deducts the amount when the balance covers it, recording the deduction as a
withdrawal ledger Transaction, and returns whether it succeeded; the
`consume_promo_offer` flag marks the one-time promo-offer discount as used
(tracked outside the modelled state). -/
def subtract_user_balance (db : Db) (amount : Int) (consume_promo_offer : Bool) :
    Bool × Db :=
  let _ := consume_promo_offer
  if db.user.balance_kopeks < amount then (false, db)
  else
    (true, { db with
      user := { db.user with balance_kopeks := db.user.balance_kopeks - amount }
      transactions := db.transactions ++
        [{ user_id := db.user.id, txType := .withdrawal, amount_kopeks := amount }] })

/-- Modelled from the spec: `create_transaction` (app/database/crud/transaction.py)
— appends an immutable ledger row. -/
def create_transaction (db : Db) (user_id : Int) (txType : TransactionType)
    (amount_kopeks : Int) : Transaction × Db :=
  let t : Transaction := { user_id := user_id, txType := txType, amount_kopeks := amount_kopeks }
  (t, { db with transactions := db.transactions ++ [t] })

/-- Modelled from the spec: `create_subscription_conversion`
(app/database/crud/subscription_conversion.py) — writes one trial→paid
conversion-analytics record. -/
def create_subscription_conversion (db : Db) : Db :=
  { db with conversions := db.conversions + 1 }

/-- Modelled from the spec: `mark_user_as_had_paid_subscription`
(app/utils/user_utils.py). -/
def mark_user_as_had_paid_subscription (db : Db) : Db :=
  { db with user := { db.user with had_paid_subscription := true } }

/-- Modelled from the spec: `add_user_to_servers`
(app/database/crud/server_squad.py) — increments each server's user counter. -/
def add_user_to_servers (db : Db) (server_ids : List Int) : Db :=
  let bump := fun (counts : List (Int × Int)) (i : Int) =>
    if (counts.find? (fun p => p.1 = i)).isSome then
      counts.map (fun p => if p.1 = i then (p.1, p.2 + 1) else p)
    else counts ++ [(i, 1)]
  { db with serverUserCounts := server_ids.foldl bump db.serverUserCounts }

/-- Modelled from the spec: `add_subscription_servers`
(app/database/crud/subscription.py) — records the per-server prices paid for a
subscription. -/
def add_subscription_servers (db : Db) (subId : Int) (server_ids : List Int)
    (prices : List Int) : Db :=
  { db with subscription_servers := db.subscription_servers ++
      (server_ids.zip prices).map (fun p => (subId, p.1, p.2)) }

/-- Modelled from the spec: `save_subscription_checkout_draft`
(app/services/subscription_checkout_service.py) — upserts the draft keyed by
user id. -/
def save_subscription_checkout_draft (db : Db) (uid : Int) (d : DraftData) : Db :=
  { db with checkoutDrafts := (db.checkoutDrafts.filter (fun p => p.1 ≠ uid)) ++ [(uid, d)] }

/-- Modelled from the spec: `clear_subscription_checkout_draft`. -/
def clear_subscription_checkout_draft (db : Db) (uid : Int) : Db :=
  { db with checkoutDrafts := db.checkoutDrafts.filter (fun p => p.1 ≠ uid) }

/-- Modelled from the spec: `user_cart_service.save_user_cart` — upserts the
saved cart keyed by user id. -/
def save_user_cart (db : Db) (uid : Int) (cart : CartData) : Db :=
  { db with savedCarts := (db.savedCarts.filter (fun p => p.1 ≠ uid)) ++ [(uid, cart)] }

/-- Modelled from the spec: `user_cart_service.delete_user_cart`. -/
def delete_user_cart (db : Db) (uid : Int) : Db :=
  { db with savedCarts := db.savedCarts.filter (fun p => p.1 ≠ uid) }

/-! ## app/spiderman/subscription_purchase_patch.py — `confirm_purchase` -/

/-- `db_user.get_promo_discount(kind, period_days)` and
`_get_promo_offer_discount_percent(db_user)` (promo-group machinery, outside the
patch-layer sources), consumed as an environment. -/
structure PromoEnv where
  get_promo_discount : String → Int → Int
  promo_offer_percent : Int

/-- The early returns of the price-recomputation span of `confirm_purchase`
(missing period → generic error message; empty country list; missing white
traffic package). -/
inductive PricingAbort where
  | missingPeriod
  | noCountries
  | noTrafficPackage
  deriving DecidableEq, Repr

/-- The values the price-recomputation span of `confirm_purchase` (source lines
794–960) passes on to the drift check, the balance check and the commit phase. -/
structure PricingResult where
  tariff_code : String
  period_days : Int
  months_in_period : Int
  base_price : Int
  selected_countries : List String
  server_prices : List Int
  devices_selection_enabled : Bool
  forced_disabled_limit : Option Int
  devices_selected : Int
  final_traffic_gb : Int
  calculated_total_before_promo : Int
  final_price : Int
  promo_offer_discount_value : Int
  promo_offer_discount_percent : Int
  cached_total_price : Int
  deriving DecidableEq, Repr

/-- The server-side price recomputation of `confirm_purchase`: the total is
rebuilt from the session draft (base period price with the user's period
discount, plus the discounted per-month traffic/server/device components times
the months in the period, with the one-time promo-offer percentage applied
last); the cached client total is carried along only for the drift check. -/
def confirmPricing (s : Settings) (promo : PromoEnv) (tariff_code : String)
    (data : DraftData) : Except PricingAbort PricingResult :=
  match data.period_days with
  | none => .error .missingPeriod
  | some period_days =>
      let white := tariff_code = TariffCode.WHITE
      let months_in_period :=
        if white then
          match data.months_in_period with
          | none => 1
          | some m => if m = 0 then 1 else m
        else data.months_in_period.getD (calculate_months_from_days period_days)
      let base_price :=
        if white then 0
        else (apply_percentage_discount (s.PERIOD_PRICES period_days)
          (promo.get_promo_discount "period" period_days)).1
      let period_days_for_discount :=
        if white then get_default_period_days s else period_days
      if data.countries = [] then .error .noCountries
      else
        let selected_countries := data.countries
        let server_prices :=
          if data.server_prices_for_period = [] then
            List.replicate selected_countries.length (0 : Int)
          else data.server_prices_for_period
        let countries_price_per_month := data.servers_price_per_month.getD 0
        let discounted_servers_price_per_month :=
          data.servers_discounted_price_per_month.getD countries_price_per_month
        let devices_selection_enabled := s.devices_selection_enabled
        let forced_disabled_limit :=
          if devices_selection_enabled then none else s.disabled_mode_device_limit
        let devices_selected0 :=
          if devices_selection_enabled then data.devices.getD s.DEFAULT_DEVICE_LIMIT
          else
            match s.disabled_mode_device_limit with
            | none => s.DEFAULT_DEVICE_LIMIT
            | some l => l
        let devices_selected := if white then 0 else devices_selected0
        let additional_devices := max 0 (devices_selected - s.DEFAULT_DEVICE_LIMIT)
        let devices_price_per_month :=
          data.devices_price_per_month.getD (additional_devices * s.PRICE_PER_DEVICE)
        let discounted_devices_price_per_month :=
          if tariff_code = TariffCode.STANDARD ∧ devices_selection_enabled ∧
              0 < additional_devices then
            if data.devices_discount_percent.isSome then
              data.devices_discounted_price_per_month.getD devices_price_per_month
            else
              (apply_percentage_discount devices_price_per_month
                (promo.get_promo_discount "devices" period_days_for_discount)).1
          else 0
        let trafficStep : Except PricingAbort (Int × Int) :=
          if tariff_code = TariffCode.STANDARD then .ok (0, 0)
          else
            match data.final_traffic_gb with
            | some g => .ok (g, data.traffic_price_per_month.getD (s.get_traffic_price g))
            | none =>
                match data.traffic_gb with
                | some g => .ok (g, data.traffic_price_per_month.getD (s.get_traffic_price g))
                | none => .error .noTrafficPackage
        match trafficStep with
        | .error e => .error e
        | .ok (final_traffic_gb, traffic_price_per_month) =>
            let discounted_traffic_price_per_month :=
              if tariff_code = TariffCode.STANDARD then 0
              else if data.traffic_discount_percent.isSome then
                data.traffic_discounted_price_per_month.getD traffic_price_per_month
              else
                (apply_percentage_discount traffic_price_per_month
                  (promo.get_promo_discount "traffic" period_days_for_discount)).1
            let cached_total_price := data.total_price.getD 0
            let discounted_monthly_additions :=
              discounted_traffic_price_per_month + discounted_servers_price_per_month +
                discounted_devices_price_per_month
            let calculated_total_before_promo :=
              base_price + discounted_monthly_additions * months_in_period
            let promoStep :=
              if 0 < promo.promo_offer_percent then
                let p := apply_percentage_discount calculated_total_before_promo
                  promo.promo_offer_percent
                (p.1, p.2, promo.promo_offer_percent)
              else (calculated_total_before_promo, 0, 0)
            .ok {
              tariff_code := tariff_code
              period_days := period_days
              months_in_period := months_in_period
              base_price := base_price
              selected_countries := selected_countries
              server_prices := server_prices
              devices_selection_enabled := devices_selection_enabled
              forced_disabled_limit := forced_disabled_limit
              devices_selected := devices_selected
              final_traffic_gb := final_traffic_gb
              calculated_total_before_promo := calculated_total_before_promo
              final_price := promoStep.1
              promo_offer_discount_value := promoStep.2.1
              promo_offer_discount_percent := promoStep.2.2
              cached_total_price := cached_total_price }

/-- Results of `confirm_purchase` (each constructor stands for the message /
delegation path the source takes at that point). -/
inductive ConfirmOutcome where
  | blacklisted
  | restricted
  | delegated
  | purchaseError
  | noCountries
  | noTrafficPackage
  | priceDrift
  | insufficientFunds (missing : Int)
  | deductFailed (missing : Int)
  | success (charged : Int) (subscriptionId : Int)
  deriving DecidableEq, Repr

/-- The bookkeeping prefix of the committed purchase's tail (source lines
1285–1298): mark the user as paid, and when any server rows resolve, store the
per-server prices and bump the server counters. -/
def confirmFinishPre (server_ids_by_uuids : List String → List Int)
    (pr : PricingResult) (sub : Subscription) (db : Db) : Db :=
  let db1 := mark_user_as_had_paid_subscription db
  let server_ids := server_ids_by_uuids pr.selected_countries
  if server_ids = [] then db1
  else
    let prices :=
      if pr.server_prices = [] ∨ pr.server_prices.length ≠ server_ids.length then
        List.replicate server_ids.length (0 : Int)
      else pr.server_prices
    add_user_to_servers (add_subscription_servers db1 sub.id server_ids prices) server_ids

/-- The panel-synchronization step of the committed purchase (source lines
1302–1329): update when the subscription already carries a panel uuid, create
otherwise, and on failure retry once through create. -/
def confirmFinishSync (s : Settings) (api : PanelApi) (ambient : String)
    (now : Int) (sub : Subscription) (db : Db) : Option PanelUser × Db :=
  let sync1 :=
    if optTruthy sub.remnawave_uuid then
      update_remnawave_user s api ambient now s.RESET_TRAFFIC_ON_PAYMENT db sub.id
    else
      create_remnawave_user s api ambient s.RESET_TRAFFIC_ON_PAYMENT db sub.id
  match sync1.1 with
  | some u => (some u, sync1.2)
  | none => create_remnawave_user s api ambient s.RESET_TRAFFIC_ON_PAYMENT sync1.2 sub.id

/-- The post-mutation tail of the committed purchase (source lines 1285–1358):
mark the user as paid, store server prices and bump server counters, synchronize
the panel (update when the subscription already has a panel uuid, create
otherwise, retrying once via create on failure), write the SUBSCRIPTION_PAYMENT
ledger row for the charged amount, and clear the checkout draft and saved cart. -/
def confirmFinish (s : Settings) (api : PanelApi)
    (server_ids_by_uuids : List String → List Int) (ambient : String) (now : Int)
    (pr : PricingResult) (sub : Subscription) (db : Db) : ConfirmOutcome × Db :=
  let db2 := confirmFinishPre server_ids_by_uuids pr sub db
  let db3 := (confirmFinishSync s api ambient now sub db2).2
  let tx := create_transaction db3 db3.user.id .subscription_payment pr.final_price
  let db4 := tx.2
  let db5 := delete_user_cart (clear_subscription_checkout_draft db4 db4.user.id) db4.user.id
  (.success pr.final_price sub.id, db5)

/-- The sufficient-balance commit phase of `confirm_purchase` (the `try` block,
source lines 1085–1358): deduct the recomputed price from the balance
(consuming the promo offer when one applied), then merge the entitlements into
the existing (user, tariff) row — trial conversion bookkeeping and optional
carry-forward of remaining trial time, white traffic accumulation, device-limit
overwrite, end-date extension from the later of (existing end, now), white
end-date pinned to the sentinel — or create a fresh paid row, then run the
shared tail. -/
def confirmCommit (s : Settings) (api : PanelApi)
    (server_ids_by_uuids : List String → List Int) (ambient : String) (now : Int)
    (data : DraftData) (pr : PricingResult) (db : Db) (newSubId : Int) :
    ConfirmOutcome × Db :=
  let _ := data
  match subtract_user_balance db pr.final_price (0 < pr.promo_offer_discount_value) with
  | (false, db2) => (.deductFailed (pr.final_price - db2.user.balance_kopeks), db2)
  | (true, db2) =>
      let lookup := get_subscription_by_user_id now db2.subscriptions db2.user.id ambient
        (some pr.tariff_code)
      let db3 := { db2 with subscriptions := lookup.2 }
      let selected_devices : Option Int :=
        if pr.tariff_code = TariffCode.WHITE then some 0
        else if pr.devices_selection_enabled then some pr.devices_selected
        else pr.forced_disabled_limit
      match lookup.1 with
      | some existing =>
          let bonus_period : Int :=
            if existing.is_trial ∧ s.TRIAL_ADD_REMAINING_DAYS_TO_PAID ∧
                now < existing.end_date then
              existing.end_date - now
            else 0
          let db4 := if existing.is_trial then create_subscription_conversion db3 else db3
          if pr.selected_countries = [] then (.noCountries, db4)
          else
            let extension_base :=
              if now < existing.end_date then existing.end_date else now
            let white := pr.tariff_code = TariffCode.WHITE
            let updated := { existing with
              is_trial := false
              status := SubscriptionStatus.ACTIVE
              traffic_limit_gb :=
                if white then
                  if pr.final_traffic_gb = 0 then 0
                  else if existing.traffic_limit_gb ≠ 0 then
                    existing.traffic_limit_gb + pr.final_traffic_gb
                  else existing.traffic_limit_gb
                else pr.final_traffic_gb
              purchased_traffic_gb :=
                if white then
                  if pr.final_traffic_gb = 0 then 0
                  else existing.purchased_traffic_gb + pr.final_traffic_gb
                else existing.purchased_traffic_gb
              device_limit :=
                match selected_devices with
                | some d => d
                | none => existing.device_limit
              connected_squads := pr.selected_countries
              start_date := if now < existing.end_date then existing.start_date else now
              end_date :=
                if white then whiteUnlimitedEndDate
                else extension_base + pr.period_days * secondsPerDay + bonus_period
              updated_at := now
              traffic_used_gb := if white then existing.traffic_used_gb else 0 }
            let db5 := { db4 with subscriptions := replaceById db4.subscriptions updated }
            confirmFinish s api server_ids_by_uuids ambient now pr updated db5
      | none =>
          let resolved_device_limit : Int :=
            match selected_devices with
            | some d => d
            | none =>
                if pr.devices_selection_enabled then s.DEFAULT_DEVICE_LIMIT
                else
                  match pr.forced_disabled_limit with
                  | none => s.DEFAULT_DEVICE_LIMIT
                  | some f => if f = 0 then s.DEFAULT_DEVICE_LIMIT else f
          if pr.selected_countries = [] then (.noCountries, db3)
          else
            let created := create_paid_subscription s now db3.subscriptions db3.user.id
              pr.period_days pr.final_traffic_gb (some resolved_device_limit)
              pr.selected_countries ambient (some pr.tariff_code) newSubId
            let db5 := { db3 with subscriptions := created.2 }
            let white := pr.tariff_code = TariffCode.WHITE
            let sub2 :=
              if white then
                { created.1 with
                  end_date := whiteUnlimitedEndDate
                  purchased_traffic_gb :=
                    if pr.final_traffic_gb = 0 then 0 else pr.final_traffic_gb }
              else created.1
            let db6 :=
              if white then { db5 with subscriptions := replaceById db5.subscriptions sub2 }
              else db5
            confirmFinish s api server_ids_by_uuids ambient now pr sub2 db6

/-- `confirm_purchase` from app/spiderman/subscription_purchase_patch.py: the
atomic commit step of the purchase wizard.  Rejects blacklisted/restricted users
before any mutation; delegates to the original handler when the draft carries no
tariff; persists the checkout draft; recomputes the price server-side and aborts
on a drift beyond max(500 kopeks, 5% of the recomputed price); on insufficient
balance persists the saved cart (with the missing amount) and mutates nothing
else; otherwise runs the commit phase. -/
def confirm_purchase (s : Settings) (promo : PromoEnv) (api : PanelApi)
    (server_ids_by_uuids : List String → List Int) (ambient : String) (now : Int)
    (is_blacklisted : Bool) (data : DraftData) (db : Db) (newSubId : Int) :
    ConfirmOutcome × Db :=
  if is_blacklisted then (.blacklisted, db)
  else if db.user.restriction_subscription then (.restricted, db)
  else
    match data.tariff_code with
    | none => (.delegated, db)
    | some traw =>
        if traw = "" then (.delegated, db)
        else
          let tariff_code := normalize_tariff_code ambient (some traw)
          if ¬(tariff_code = TariffCode.STANDARD ∨ tariff_code = TariffCode.WHITE) then
            (.delegated, db)
          else
            let db1 := save_subscription_checkout_draft db db.user.id data
            match confirmPricing s promo tariff_code data with
            | .error .missingPeriod => (.purchaseError, db1)
            | .error .noCountries => (.noCountries, db1)
            | .error .noTrafficPackage => (.noTrafficPackage, db1)
            | .ok pr =>
                let max_allowed_difference := max 500 (pr.final_price * 5 / 100)
                if max_allowed_difference < |pr.final_price - pr.cached_total_price| then
                  (.priceDrift, db1)
                else if db1.user.balance_kopeks < pr.final_price then
                  let missing := pr.final_price - db1.user.balance_kopeks
                  let cart : CartData :=
                    { data := data, missing_amount := missing, user_id := db1.user.id }
                  (.insufficientFunds missing, save_user_cart db1 db1.user.id cart)
                else
                  confirmCommit s api server_ids_by_uuids ambient now data pr db1 newSubId

/-! ## Statement helpers and witness fixtures -/

/-- The ledger-relevant projection of the database (user identity, balance, and
transaction log), used to state that panel synchronization never touches money. -/
def dbLedger (db : Db) : Int × Int × List Transaction :=
  (db.user.id, db.user.balance_kopeks, db.transactions)

/-- The row produced when `create_pending_subscription` overwrites an existing
non-active row in place (status to pending, payload fields replaced, identity
and bookkeeping fields kept). -/
def overwrittenPendingRow (now duration_days traffic_limit_gb device_limit : Int)
    (connected_squads : List String) (r : Subscription) : Subscription :=
  { r with
    status := SubscriptionStatus.PENDING
    is_trial := false
    start_date := now
    end_date := now + duration_days * secondsPerDay
    traffic_limit_gb := traffic_limit_gb
    device_limit := device_limit
    connected_squads := connected_squads
    traffic_used_gb := 0
    updated_at := now }

/-- A concrete configuration used by witnesses. -/
def wSettings : Settings :=
  { PERIOD_PRICES := fun d => if d = 30 then 10000 else 30000
    DEFAULT_DEVICE_LIMIT := 1
    PRICE_PER_DEVICE := 5000
    devices_selection_enabled := true
    disabled_mode_device_limit := none
    get_traffic_price := fun g => g * 100
    TRIAL_ADD_REMAINING_DAYS_TO_PAID := true
    RESET_TRAFFIC_ON_PAYMENT := false
    available_periods := [30, 90]
    autopay_enabled_by_default := false
    DEFAULT_AUTOPAY_DAYS_BEFORE := 3
    WHITE_TARIFF_TAG := some "WHITE"
    STANDARD_TARIFF_TAG := some "STD"
    WHITE_TARIFF_SUFFIX := some "_w"
    trial_user_tag := some "TRIAL"
    paid_user_tag := some "PAID"
    format_remnawave_username := fun _ _ tid => "user" ++ (if tid = 0 then "0" else "N")
    format_remnawave_user_description := fun _ _ _ => "desc"
    traffic_reset_strategy := "MONTH"
    resolve_hwid_device_limit := fun sub => some sub.device_limit }

/-- A concrete active standard subscription row used by witnesses. -/
def wActiveRow : Subscription :=
  { id := 11
    user_id := 7
    tariff_code := "standard"
    status := SubscriptionStatus.ACTIVE
    is_trial := false
    start_date := 0
    end_date := 5000000
    traffic_limit_gb := 0
    traffic_used_gb := 0
    purchased_traffic_gb := 0
    device_limit := 1
    connected_squads := ["sq1"]
    remnawave_uuid := some "uuid-11"
    remnawave_short_uuid := some "short-11"
    subscription_url := "https://sub/11"
    subscription_crypto_link := "happ://11"
    autopay_enabled := false
    autopay_days_before := 3
    created_at := 0
    updated_at := 0 }

/-- A concrete expired standard subscription row used by witnesses. -/
def wExpiredRow : Subscription :=
  { wActiveRow with id := 12, status := SubscriptionStatus.EXPIRED, end_date := 100 }

/-- A concrete user used by witnesses. -/
def wUser : DbUser :=
  { id := 7
    telegram_id := 777
    full_name := "Ann"
    username := some "ann"
    balance_kopeks := 100000
    remnawave_uuid := none
    restriction_subscription := false
    had_paid_subscription := false }

/-- A database with one active standard subscription. -/
def wDb : Db :=
  { user := wUser
    subscriptions := [wActiveRow]
    transactions := []
    conversions := 0
    savedCarts := []
    checkoutDrafts := []
    serverUserCounts := []
    subscription_servers := [] }

/-- The panel-side record matching `wActiveRow`. -/
def wPanelUser : PanelUser :=
  { uuid := "uuid-11"
    short_uuid := "short-11"
    subscription_url := "https://sub/11"
    happ_crypto_link := "happ://11"
    username := "userN"
    tag := some "STD"
    telegram_id := 777 }

/-- A panel API whose lookups succeed but whose mutation calls fail. -/
def wFailApi : PanelApi :=
  { get_user_by_uuid := fun _ => .ok (some wPanelUser)
    get_user_by_username := fun _ => .ok (some wPanelUser)
    get_user_by_telegram_id := fun _ => .ok [wPanelUser]
    update_user := fun _ => .error ()
    create_user := fun _ => .error ()
    reset_user_traffic := fun _ => .ok () }

/-- A panel API on which every lookup misses and every mutation fails. -/
def cxApi : PanelApi :=
  { get_user_by_uuid := fun _ => .ok none
    get_user_by_username := fun _ => .ok none
    get_user_by_telegram_id := fun _ => .ok []
    update_user := fun _ => .error ()
    create_user := fun _ => .error ()
    reset_user_traffic := fun _ => .ok () }

/-- An active subscription whose end date has already passed (a state the
background reconciler has not visited yet). -/
def cxStaleRow : Subscription :=
  { wActiveRow with end_date := 100 }

/-- A database holding the stale active subscription. -/
def cxDb : Db :=
  { wDb with subscriptions := [cxStaleRow] }

/-- A promo environment with no discounts. -/
def wPromo : PromoEnv :=
  { get_promo_discount := fun _ _ => 0
    promo_offer_percent := 0 }

/-- A panel API on which every call succeeds. -/
def wOkApi : PanelApi :=
  { get_user_by_uuid := fun _ => .ok (some wPanelUser)
    get_user_by_username := fun _ => .ok (some wPanelUser)
    get_user_by_telegram_id := fun _ => .ok [wPanelUser]
    update_user := fun _ => .ok wPanelUser
    create_user := fun _ => .ok wPanelUser
    reset_user_traffic := fun _ => .ok () }

/-- `get_server_ids_by_uuids` for the scenario databases (no server rows). -/
def wServerIds : List String → List Int := fun _ => []

/-- Scenario A's subscription: an active standard trial expiring in 3 days
(`now = 0`). -/
def trialRow : Subscription :=
  { wActiveRow with is_trial := true, end_date := 3 * 86400 }

/-- Scenario A's database. -/
def scADb : Db :=
  { wDb with subscriptions := [trialRow] }

/-- Scenario A's checkout draft: a 30-day standard period, 0 extra devices, with
the cached total equal to the recomputed one. -/
def scATrialDraft : DraftData :=
  { tariff_code := some "standard"
    period_days := some 30
    months_in_period := some 1
    countries := ["sq1"]
    server_prices_for_period := []
    total_servers_price := none
    servers_price_per_month := none
    servers_discounted_price_per_month := none
    servers_discount_total := none
    servers_discount_percent := none
    devices := some 1
    devices_price_per_month := none
    devices_discount_percent := none
    devices_discounted_price_per_month := none
    devices_discount_total := none
    total_devices_price := none
    final_traffic_gb := none
    traffic_gb := none
    traffic_price_per_month := none
    traffic_discount_percent := none
    traffic_discounted_price_per_month := none
    traffic_discount_total := none
    total_traffic_price := none
    total_price := some 10000
    promo_offer_discount_value := none
    total_price_before_promo_offer := none }

/-- Scenario B's subscription: an active white subscription with 50 GB limit and
10 GB purchased, pinned to the unlimited sentinel. -/
def whiteRow : Subscription :=
  { wActiveRow with
    id := 13
    tariff_code := "white"
    traffic_limit_gb := 50
    purchased_traffic_gb := 10
    end_date := whiteUnlimitedEndDate }

/-- Scenario B's database. -/
def scBDb : Db :=
  { wDb with subscriptions := [whiteRow] }

/-- Scenario B's checkout draft: a 20 GB white traffic package, cached total
matching the recomputed one (20 GB at the configured 100 kopeks per GB). -/
def scBDraft : DraftData :=
  { scATrialDraft with
    tariff_code := some "white"
    final_traffic_gb := some 20
    total_price := some 2000 }

/-- A low-balance database (500 kopeks) for the insufficient-funds witness. -/
def c4Db : Db :=
  { wDb with user := { wUser with balance_kopeks := 500 } }

/-- The pricing result `confirmPricing` computes for `scATrialDraft` under
`wSettings`/`wPromo`. -/
def c4Pr : PricingResult :=
  { tariff_code := "standard"
    period_days := 30
    months_in_period := 1
    base_price := 10000
    selected_countries := ["sq1"]
    server_prices := [0]
    devices_selection_enabled := true
    forced_disabled_limit := none
    devices_selected := 1
    final_traffic_gb := 0
    calculated_total_before_promo := 10000
    final_price := 10000
    promo_offer_discount_value := 0
    promo_offer_discount_percent := 0
    cached_total_price := 10000 }

/-- A draft whose cached client total drifted far from the recomputed price. -/
def c5Draft : DraftData :=
  { scATrialDraft with total_price := some 99999 }

/-- The pricing result for `c5Draft`: same recomputed price, drifted cache. -/
def c5Pr : PricingResult :=
  { c4Pr with cached_total_price := 99999 }

/-- Scenario A run at `now = 0` with the trial carry-forward flag as given. -/
def scARun (carry : Bool) : ConfirmOutcome × Db :=
  confirm_purchase { wSettings with TRIAL_ADD_REMAINING_DAYS_TO_PAID := carry }
    wPromo wOkApi wServerIds "standard" 0 false scATrialDraft scADb 99

/-- Scenario B run at `now = 0`. -/
def scBRun : ConfirmOutcome × Db :=
  confirm_purchase wSettings wPromo wOkApi wServerIds "standard" 0 false
    scBDraft scBDb 99

end Spiderman

namespace Spiderman

/-! # Theorems -/

/-! ## Tariff context -/

theorem normalize_nonempty_cases (ambient : String) (s : String) (hs : s ≠ "") :
    normalize_tariff_code ambient (some s) = TariffCode.WHITE ∨
      normalize_tariff_code ambient (some s) = TariffCode.STANDARD := by
  unfold normalize_tariff_code
  simp only [hs, if_false]
  split
  · exact Or.inl rfl
  · split
    · exact Or.inr rfl
    · exact Or.inr rfl

theorem normalize_total (ambient : String) (h : validAmbient ambient)
    (value : Option String) :
    normalize_tariff_code ambient value = TariffCode.STANDARD ∨
      normalize_tariff_code ambient value = TariffCode.WHITE := by
  match value with
  | none => simpa [normalize_tariff_code] using h
  | some s =>
      by_cases hs : s = ""
      · subst hs
        simpa [normalize_tariff_code] using h
      · exact (normalize_nonempty_cases ambient s hs).symm

theorem normalize_standard_fixed (ambient : String) :
    normalize_tariff_code ambient (some TariffCode.STANDARD) = TariffCode.STANDARD := by
  simp only [normalize_tariff_code]
  rw [if_neg (by decide)]
  decide

theorem normalize_white_fixed (ambient : String) :
    normalize_tariff_code ambient (some TariffCode.WHITE) = TariffCode.WHITE := by
  simp only [normalize_tariff_code]
  rw [if_neg (by decide)]
  decide

/-- C7: `normalize(None)` (and the empty value) returns the current ambient
tariff code, which is "standard" when not overridden (the default of the context
variable); `normalize("white")`, `normalize("w")` and `normalize("WHITE")` all
return "white"; and every unrecognized non-empty value — one whose
stripped/lowered form is none of the recognized aliases "white", "w",
"standard", "s" — falls back to "standard". -/
theorem tariff_default_resolution (ambient : String) :
    normalize_tariff_code ambient none = ambient ∧
      normalize_tariff_code ambient (some "") = ambient ∧
      normalize_tariff_code DEFAULT_TARIFF_CODE none = "standard" ∧
      normalize_tariff_code ambient (some "white") = "white" ∧
      normalize_tariff_code ambient (some "w") = "white" ∧
      normalize_tariff_code ambient (some "WHITE") = "white" ∧
      normalize_tariff_code ambient (some "bogus") = "standard" ∧
      (∀ v : String, v ≠ "" →
        pyLower (pyStrip v) ≠ "white" → pyLower (pyStrip v) ≠ "w" →
        pyLower (pyStrip v) ≠ "standard" → pyLower (pyStrip v) ≠ "s" →
        normalize_tariff_code ambient (some v) = "standard") := by
  refine ⟨rfl, rfl, rfl, ?_, ?_, ?_, ?_, ?_⟩
  · simp only [normalize_tariff_code]
    rw [if_neg (by decide)]
    decide
  · simp only [normalize_tariff_code]
    rw [if_neg (by decide)]
    decide
  · simp only [normalize_tariff_code]
    rw [if_neg (by decide)]
    decide
  · simp only [normalize_tariff_code]
    rw [if_neg (by decide)]
    decide
  · intro v hne hw1 hw2 hs1 hs2
    simp only [normalize_tariff_code]
    rw [if_neg hne]
    rw [if_neg (by
      simp only [TariffCode.WHITE, not_or]
      exact ⟨hw1, hw2, hw1⟩)]
    rw [if_neg (by
      simp only [TariffCode.STANDARD, not_or]
      exact ⟨hs1, hs2, hs1⟩)]
    rfl

/-- Witness for C7: the unrecognized value "  Bogus-2 " (non-empty, and its
stripped/lowered form "bogus-2" is none of the recognized aliases) falls back
to "standard". -/
theorem tariff_default_resolution_witness :
    ("  Bogus-2 " : String) ≠ "" ∧
    pyLower (pyStrip "  Bogus-2 ") ≠ "white" ∧
    pyLower (pyStrip "  Bogus-2 ") ≠ "w" ∧
    pyLower (pyStrip "  Bogus-2 ") ≠ "standard" ∧
    pyLower (pyStrip "  Bogus-2 ") ≠ "s" ∧
    normalize_tariff_code "standard" (some "  Bogus-2 ") = "standard" :=
  ⟨by decide, by decide, by decide, by decide, by decide,
    (tariff_default_resolution "standard").2.2.2.2.2.2.2 "  Bogus-2 "
      (by decide) (by decide) (by decide) (by decide) (by decide)⟩

/-- C9: `normalize_tariff_code` is total onto the tariff enumeration — for every
input (None or any string, which covers enum arguments via `str(value)`) the
result is exactly "standard" or "white" whenever the ambient default is itself
one of the two codes (an invariant maintained by `use_tariff_code`) — and it is
idempotent: normalizing an already-normalized value is the identity. -/
theorem normalize_idempotent_total (ambient : String) (h : validAmbient ambient) :
    (∀ value : Option String,
        normalize_tariff_code ambient value = "standard" ∨
          normalize_tariff_code ambient value = "white") ∧
      (∀ value : Option String,
        normalize_tariff_code ambient (some (normalize_tariff_code ambient value)) =
          normalize_tariff_code ambient value) := by
  constructor
  · exact fun value => normalize_total ambient h value
  · intro value
    rcases normalize_total ambient h value with hv | hv <;> rw [hv]
    · exact normalize_standard_fixed ambient
    · exact normalize_white_fixed ambient

/-- Witness for `normalize_idempotent_total` at the default ambient value. -/
theorem normalize_idempotent_total_witness :
    validAmbient "standard" ∧
      ((∀ value : Option String,
          normalize_tariff_code "standard" value = "standard" ∨
            normalize_tariff_code "standard" value = "white") ∧
        (∀ value : Option String,
          normalize_tariff_code "standard" (some (normalize_tariff_code "standard" value)) =
            normalize_tariff_code "standard" value)) :=
  ⟨Or.inl rfl, normalize_idempotent_total "standard" (Or.inl rfl)⟩

/-! ## Contest winner cap -/

theorem runAttempts_count_and_final (round : ContestRound) (attempts : List Bool)
    (hall : ∀ a ∈ attempts, a = true) :
    ((runAttempts round attempts).1.count true =
        min attempts.length (round.max_winners - round.winners_count)) ∧
      (runAttempts round attempts).2.winners_count =
        min (round.winners_count + attempts.length) round.max_winners ∨
      round.max_winners < round.winners_count ∧
        (runAttempts round attempts).2.winners_count = round.winners_count := by
  induction attempts generalizing round with
  | nil =>
      by_cases h : round.max_winners < round.winners_count
      · exact Or.inr ⟨h, rfl⟩
      · refine Or.inl ⟨?_, ?_⟩
        · simp [runAttempts]
        · simp [runAttempts]
          omega
  | cons a rest ih =>
      have ha : a = true := hall a (List.mem_cons_self a rest)
      subst ha
      have hrest : ∀ b ∈ rest, b = true := fun b hb => hall b (List.mem_cons_of_mem _ hb)
      by_cases hcap : round.winners_count ≥ round.max_winners
      · have hstep : atomic_winner_check round true = (false, round) := by
          simp [atomic_winner_check, hcap]
        rcases ih round hrest with ⟨hc, hf⟩ | ⟨hlt, hf⟩
        · refine Or.inl ⟨?_, ?_⟩
          · simp [runAttempts, hstep, hc]
            omega
          · simp [runAttempts, hstep, hf]
            omega
        · refine Or.inr ⟨hlt, ?_⟩
          simp [runAttempts, hstep, hf]
      · have hstep : atomic_winner_check round true =
            (true, { round with winners_count := round.winners_count + 1 }) := by
          simp [atomic_winner_check, hcap]
        rcases ih { round with winners_count := round.winners_count + 1 } hrest with
          ⟨hc, hf⟩ | ⟨hlt, hf⟩
        · refine Or.inl ⟨?_, ?_⟩
          · simp [runAttempts, hstep, hc]
            omega
          · simp [runAttempts, hstep] at hf ⊢
            omega
        · exfalso
          simp at hlt
          omega

theorem runAttempts_cap (round : ContestRound) (attempts : List Bool)
    (h : round.winners_count ≤ round.max_winners) :
    (runAttempts round attempts).2.winners_count ≤ round.max_winners := by
  induction attempts generalizing round with
  | nil => simpa [runAttempts] using h
  | cons a rest ih =>
      unfold runAttempts
      cases a with
      | false =>
          simpa [atomic_winner_check] using ih round h
      | true =>
          by_cases hcap : round.winners_count ≥ round.max_winners
          · simpa [atomic_winner_check, hcap] using ih round h
          · have : round.winners_count + 1 ≤ round.max_winners := by omega
            simpa [atomic_winner_check, hcap] using
              ih { round with winners_count := round.winners_count + 1 } this

/-- C2: for a round with `max_winners = N` and `winners_count` starting at 0,
running `M ≥ N` correct-answer attempts (serialized by the select-for-update row
lock taken in `_atomic_winner_check`, one atomic step per distinct user), exactly
`N` attempts end with `is_winner = true`, and after every prefix of the run —
i.e. in every reachable state — `winners_count` never exceeds `max_winners`. -/
theorem winner_cap_exact (N : Nat) (attempts : List Bool)
    (hall : ∀ a ∈ attempts, a = true) (hM : N ≤ attempts.length) :
    ((runAttempts ⟨0, N⟩ attempts).1.count true = N) ∧
      (∀ k : Nat, (runAttempts ⟨0, N⟩ (attempts.take k)).2.winners_count ≤ N) := by
  constructor
  · rcases runAttempts_count_and_final ⟨0, N⟩ attempts hall with ⟨hc, _⟩ | ⟨hlt, _⟩
    · simpa [Nat.min_eq_right hM] using hc
    · simp at hlt
  · intro k
    exact runAttempts_cap ⟨0, N⟩ (attempts.take k) (Nat.zero_le _)

/-- Witness for `winner_cap_exact`: three correct attempts against a cap of two. -/
theorem winner_cap_exact_witness :
    ((runAttempts ⟨0, 2⟩ [true, true, true]).1.count true = 2) ∧
      (∀ k : Nat, (runAttempts ⟨0, 2⟩ ([true, true, true].take k)).2.winners_count ≤ 2) :=
  winner_cap_exact 2 [true, true, true] (by decide) (by decide)

/-! ## Contest days-prize parsing -/

/-- C10 counterexample: a negative `prize_value` of "-5" does not fall back to
the 1-day default — the digit extraction ignores the sign and the "days" branch
extends the subscription by 5 days. -/
theorem award_days_negative_cx :
    award_days_extension (some "-5") = 5 ∧ (5 : Nat) ≠ 1 := by
  constructor
  · decide
  · decide

theorem parse_positive_int_pos (s : String) (d : Nat) (hd : 1 ≤ d) :
    1 ≤ parse_positive_int s d := by
  unfold parse_positive_int
  split
  · exact hd
  · split
    · exact hd
    · dsimp only
      split
      · omega
      · exact hd

/-- C10 (amended): the prize value is parsed by extracting its first run of
digits — so a negative value such as "-5" yields a 5-day extension, its sign
ignored, rather than the default; for a missing, empty, digit-free, or
zero-valued `prize_value` the extension is the default of exactly 1 day; and the
extension is never zero (always at least 1 day). -/
theorem award_days_default_positive :
    (∀ pv : Option String, 1 ≤ award_days_extension pv) ∧
      (∀ s : String, firstDigitRun s.data = none → award_days_extension (some s) = 1) ∧
      (∀ s : String, ∀ ds : List Char, firstDigitRun s.data = some ds →
        digitsToNat ds = 0 → award_days_extension (some s) = 1) := by
  refine ⟨?_, ?_, ?_⟩
  · intro pv
    cases pv with
    | none => decide
    | some s =>
        by_cases hempty : s = ""
        · subst hempty
          decide
        · show 1 ≤ parse_positive_int (if s = "" then "1" else s) 1
          rw [if_neg hempty]
          exact parse_positive_int_pos s 1 le_rfl
  · intro s hs
    by_cases hempty : s = ""
    · subst hempty
      decide
    · simp [award_days_extension, hempty, parse_positive_int, hs]
  · intro s ds hds hzero
    by_cases hempty : s = ""
    · subst hempty
      decide
    · simp [award_days_extension, hempty, parse_positive_int, hds, hzero]

/-- Witness for `award_days_default_positive`: a digit-free value and a
zero-valued prize both give the 1-day default. -/
theorem award_days_default_positive_witness :
    1 ≤ award_days_extension (some "abc") ∧
      award_days_extension (some "abc") = 1 ∧
      award_days_extension (some "0 days") = 1 :=
  ⟨award_days_default_positive.1 (some "abc"),
    award_days_default_positive.2.1 "abc" (by decide),
    award_days_default_positive.2.2 "0 days" ['0'] (by decide) (by decide)⟩

/-! ## Subscription repository: `create_pending_subscription` -/

theorem replaceById_of_not_mem (l : List Subscription) (u : Subscription)
    (h : ∀ y ∈ l, y.id ≠ u.id) : replaceById l u = l := by
  induction l with
  | nil => rfl
  | cons x rest ih =>
      have hx : x.id ≠ u.id := h x (List.mem_cons_self x rest)
      have hr : ∀ y ∈ rest, y.id ≠ u.id := fun y hy => h y (List.mem_cons_of_mem _ hy)
      have hih := ih hr
      simp only [replaceById, List.map_cons] at hih ⊢
      rw [if_neg hx, hih]

theorem replaceById_self (l : List Subscription) (r : Subscription)
    (hmem : r ∈ l) (hids : (l.map (fun x => x.id)).Nodup) : replaceById l r = l := by
  induction l with
  | nil => cases hmem
  | cons x rest ih =>
      simp only [List.map_cons, List.nodup_cons] at hids
      obtain ⟨hnotin, hnodup⟩ := hids
      rcases List.mem_cons.mp hmem with heq | hmem'
      · subst heq
        have hrest : ∀ y ∈ rest, y.id ≠ r.id := by
          intro y hy he
          exact hnotin (he ▸ List.mem_map_of_mem (fun x => x.id) hy)
        have hr := replaceById_of_not_mem rest r hrest
        simp only [replaceById, List.map_cons, if_pos rfl] at hr ⊢
        rw [hr]
        simp
      · have hxr : x.id ≠ r.id := by
          intro he
          exact hnotin (he ▸ List.mem_map_of_mem (fun x => x.id) hmem')
        have hih := ih hmem' hnodup
        simp only [replaceById, List.map_cons] at hih ⊢
        rw [if_neg hxr, hih]

theorem replaceById_replaceById (l : List Subscription) (a b : Subscription)
    (h : a.id = b.id) : replaceById (replaceById l a) b = replaceById l b := by
  induction l with
  | nil => rfl
  | cons x rest ih =>
      simp only [replaceById, List.map_cons] at ih ⊢
      by_cases hx : x.id = a.id
      · rw [if_pos hx, if_pos h, if_pos (hx.trans h), ih]
      · rw [if_neg hx]
        by_cases hxb : x.id = b.id
        · rw [if_pos hxb, ih]
        · rw [if_neg hxb, ih]

theorem countP_replaceById (p : Subscription → Bool) (l : List Subscription)
    (u r : Subscription) (hmem : r ∈ l)
    (hids : (l.map (fun x => x.id)).Nodup) (hid : u.id = r.id) (hp : p u = p r) :
    (replaceById l u).countP p = l.countP p := by
  induction l with
  | nil => rfl
  | cons x rest ih =>
      simp only [List.map_cons, List.nodup_cons] at hids
      obtain ⟨hnotin, hnodup⟩ := hids
      by_cases hx : x.id = u.id
      · have hrx : r = x := by
          rcases List.mem_cons.mp hmem with h | h
          · exact h
          · exfalso
            apply hnotin
            rw [hx, hid]
            exact List.mem_map_of_mem (fun y => y.id) h
        have hrest : ∀ y ∈ rest, y.id ≠ u.id := by
          intro y hy he
          apply hnotin
          rw [hx, ← he]
          exact List.mem_map_of_mem (fun y => y.id) hy
        have hre := replaceById_of_not_mem rest u hrest
        simp only [replaceById, List.map_cons] at hre ⊢
        rw [if_pos hx, hre, List.countP_cons, List.countP_cons, ← hrx, hp]
      · have hmem' : r ∈ rest := by
          rcases List.mem_cons.mp hmem with h | h
          · exact absurd (h ▸ hid.symm) hx
          · exact h
        have hih := ih hmem' hnodup
        simp only [replaceById, List.map_cons] at hih ⊢
        rw [if_neg hx, List.countP_cons, List.countP_cons, hih]

/-- C6: `create_pending_subscription` semantics on a table satisfying the
at-most-one-row-per-(user_id, tariff) invariant: when the matching row is
currently active with a future end date the call is a no-op returning that row
with the table untouched; when the matching row exists otherwise, the row is
overwritten in place (status set to pending, payload fields replaced) rather
than a second row being inserted; and the at-most-one-row invariant is
preserved in every case (including the fresh insert when no row exists). -/
theorem create_pending_semantics
    (s : Settings) (now : Int) (subs : List Subscription)
    (uid dur tl dl : Int) (squads : List String)
    (ambient : String) (tcArg : Option String) (newId : Int)
    (hamb : validAmbient ambient)
    (hids : (subs.map (fun r => r.id)).Nodup)
    (tc : String) (htc : tc = normalize_tariff_code ambient tcArg) :
    (∀ r, subsForKey subs uid tc = [r] →
        r.status = SubscriptionStatus.ACTIVE → now < r.end_date →
        create_pending_subscription s now subs uid dur tl dl squads ambient tcArg newId =
          (r, subs)) ∧
      (∀ r, subsForKey subs uid tc = [r] →
        ¬(r.status = SubscriptionStatus.ACTIVE ∧ now < r.end_date) →
        create_pending_subscription s now subs uid dur tl dl squads ambient tcArg newId =
          (overwrittenPendingRow now dur tl dl squads r,
            replaceById subs (overwrittenPendingRow now dur tl dl squads r))) ∧
      ((subsForKey subs uid tc).length ≤ 1 →
        (subsForKey
          (create_pending_subscription s now subs uid dur tl dl squads ambient tcArg newId).2
          uid tc).length ≤ 1) := by
  subst htc
  have hfix : normalize_tariff_code ambient (some (normalize_tariff_code ambient tcArg)) =
      normalize_tariff_code ambient tcArg := by
    rcases normalize_total ambient hamb tcArg with h | h <;> rw [h]
    · exact normalize_standard_fixed ambient
    · exact normalize_white_fixed ambient
  set tc := normalize_tariff_code ambient tcArg with htc
  have hget : ∀ r, subsForKey subs uid tc = [r] →
      get_subscription_by_user_id now subs uid ambient (some tc) =
        (some (check_and_update_subscription_status now r),
          replaceById subs (check_and_update_subscription_status now r)) := by
    intro r hr
    simp only [get_subscription_by_user_id, hfix, ← htc, hr, List.argmax_singleton]
  have hmemOf : ∀ r, subsForKey subs uid tc = [r] → r ∈ subs := by
    intro r hr
    have : r ∈ subsForKey subs uid tc := by
      rw [hr]
      exact List.mem_singleton_self r
    exact List.mem_of_mem_filter this
  have partA : ∀ r, subsForKey subs uid tc = [r] →
      r.status = SubscriptionStatus.ACTIVE → now < r.end_date →
      create_pending_subscription s now subs uid dur tl dl squads ambient tcArg newId =
        (r, subs) := by
    intro r hr hact hend
    have hnd : check_and_update_subscription_status now r = r := by
      unfold check_and_update_subscription_status
      rw [if_neg]
      intro hc
      omega
    have h1 := hget r hr
    rw [hnd] at h1
    simp only [create_pending_subscription, ← htc, h1]
    rw [if_pos ⟨hact, hend⟩, replaceById_self subs r (hmemOf r hr) hids]
  have partB : ∀ r, subsForKey subs uid tc = [r] →
      ¬(r.status = SubscriptionStatus.ACTIVE ∧ now < r.end_date) →
      create_pending_subscription s now subs uid dur tl dl squads ambient tcArg newId =
        (overwrittenPendingRow now dur tl dl squads r,
          replaceById subs (overwrittenPendingRow now dur tl dl squads r)) := by
    intro r hr hnot
    have h1 := hget r hr
    have hcond : ¬((check_and_update_subscription_status now r).status =
        SubscriptionStatus.ACTIVE ∧
        now < (check_and_update_subscription_status now r).end_date) := by
      unfold check_and_update_subscription_status
      split
      · intro hc
        have hc1 := hc.1
        simp [SubscriptionStatus.EXPIRED, SubscriptionStatus.ACTIVE] at hc1
      · exact hnot
    have hid : (check_and_update_subscription_status now r).id =
        (overwrittenPendingRow now dur tl dl squads r).id := by
      unfold check_and_update_subscription_status overwrittenPendingRow
      split <;> rfl
    have hupd : ({ check_and_update_subscription_status now r with
        status := SubscriptionStatus.PENDING
        is_trial := false
        start_date := now
        end_date := now + dur * secondsPerDay
        traffic_limit_gb := tl
        device_limit := dl
        connected_squads := squads
        traffic_used_gb := 0
        updated_at := now } : Subscription) =
        overwrittenPendingRow now dur tl dl squads r := by
      unfold check_and_update_subscription_status overwrittenPendingRow
      split <;> rfl
    simp only [create_pending_subscription, ← htc, h1]
    rw [if_neg hcond]
    rw [hupd, replaceById_replaceById subs _ _ hid]
  refine ⟨partA, partB, ?_⟩
  intro hone
  cases hmatch : subsForKey subs uid tc with
  | nil =>
      have hget0 : get_subscription_by_user_id now subs uid ambient (some tc) =
          (none, subs) := by
        simp only [get_subscription_by_user_id, hfix, ← htc, hmatch, List.argmax_nil]
      simp only [create_pending_subscription, ← htc, hget0]
      simp only [subsForKey] at hmatch ⊢
      rw [List.filter_append, hmatch]
      simp only [List.nil_append]
      exact List.length_filter_le _ _
  | cons r rest =>
      have hrest : rest = [] := by
        rw [hmatch] at hone
        simp only [List.length_cons] at hone
        have h0 : rest.length = 0 := by omega
        exact List.eq_nil_of_length_eq_zero h0
      subst hrest
      by_cases hcase : r.status = SubscriptionStatus.ACTIVE ∧ now < r.end_date
      · rw [partA r hmatch hcase.1 hcase.2]
        exact hone
      · rw [partB r hmatch hcase]
        show (subsForKey
          (replaceById subs (overwrittenPendingRow now dur tl dl squads r)) uid tc).length ≤ 1
        have hmem := hmemOf r hmatch
        have hlen : (subsForKey
            (replaceById subs (overwrittenPendingRow now dur tl dl squads r)) uid tc).length =
            (subsForKey subs uid tc).length := by
          simp only [subsForKey]
          rw [← List.countP_eq_length_filter, ← List.countP_eq_length_filter]
          exact countP_replaceById _ subs _ r hmem hids rfl rfl
        rw [hlen]
        exact hone

/-- Witness for `create_pending_semantics`: an active standard row is a no-op. -/
theorem create_pending_semantics_witness :
    validAmbient "standard" ∧
      (([wActiveRow].map (fun r => r.id)).Nodup) ∧
      subsForKey [wActiveRow] 7 "standard" = [wActiveRow] ∧
      wActiveRow.status = SubscriptionStatus.ACTIVE ∧
      ((1000 : Int) < wActiveRow.end_date) ∧
      create_pending_subscription wSettings 1000 [wActiveRow] 7 30 0 1 [] "standard"
          none 99 = (wActiveRow, [wActiveRow]) :=
  ⟨Or.inl rfl, by decide, by decide, by decide, by decide,
    (create_pending_semantics wSettings 1000 [wActiveRow] 7 30 0 1 [] "standard" none 99
      (Or.inl rfl) (by decide) "standard" rfl).1 wActiveRow (by decide) (by decide)
      (by decide)⟩

/-! ## Panel synchronization failure behaviour -/

/-- C3 counterexample: `update_remnawave_user` on an active subscription whose
end date has already passed commits the expiry demotion *before* the panel
update call; when that call then fails, the function returns `none` but the
database is no longer in its pre-call state (the claim asserts it is left
intact). -/
theorem panel_sync_partial_commit_cx :
    (update_remnawave_user wSettings cxApi "standard" 1000 false cxDb 11).1 = none ∧
      (update_remnawave_user wSettings cxApi "standard" 1000 false cxDb 11).2 ≠ cxDb ∧
      ((update_remnawave_user wSettings cxApi "standard" 1000 false cxDb
          11).2.subscriptions.map (fun r => r.status)) = [SubscriptionStatus.EXPIRED] ∧
      cxStaleRow.status = SubscriptionStatus.ACTIVE := by
  refine ⟨by decide, by decide, by decide, by decide⟩

theorem update_remnawave_sync_failure (s : Settings) (api : PanelApi) (now : Int)
    (reset : Bool) (db : Db) (tc ruuid : String) (sub1 : Subscription) (user1 : DbUser)
    (hdem : ¬(sub1.status = SubscriptionStatus.ACTIVE ∧ sub1.end_date ≤ now)) :
    ∀ db', update_remnawave_sync s api now reset db tc ruuid sub1 user1 = (none, db') →
      db' = db := by
  intro db' h
  simp only [update_remnawave_sync, if_neg hdem] at h
  cases hcall : api.update_user (update_sync_payload s now tc ruuid sub1 user1) with
  | error e =>
      simp only [hcall] at h
      rw [Prod.mk.injEq] at h
      exact h.2.symm
  | ok u =>
      simp only [hcall] at h
      cases hreset : (if reset then api.reset_user_traffic ruuid else Except.ok ()) with
      | error e =>
          simp only [hreset] at h
          rw [Prod.mk.injEq] at h
          exact h.2.symm
      | ok v =>
          simp only [hreset] at h
          rw [Prod.mk.injEq] at h
          exact absurd h.1 (by simp)

theorem update_resolve_identity_preserves (s : Settings) (api : PanelApi)
    (user : DbUser) (sub0 : Subscription) (tc ruuid : String)
    (sub1 : Subscription) (user1 : DbUser)
    (h : update_resolve_identity s api user sub0 tc = .ok (some (ruuid, sub1, user1))) :
    (sub1.status = sub0.status ∧ sub1.end_date = sub0.end_date) ∧
      user1.id = user.id ∧ user1.balance_kopeks = user.balance_kopeks := by
  simp only [update_resolve_identity] at h
  split at h
  · simp only [Except.ok.injEq, Option.some.injEq, Prod.mk.injEq] at h
    rw [← h.2.1, ← h.2.2]
    exact ⟨⟨rfl, rfl⟩, rfl, rfl⟩
  · split at h
    · simp at h
    · simp at h
    · simp only [Except.ok.injEq, Option.some.injEq, Prod.mk.injEq] at h
      rw [← h.2.1, ← h.2.2]
      refine ⟨⟨rfl, rfl⟩, ?_, ?_⟩ <;>
        · split <;> rfl

/-- C3 (amended): on any panel-API error or unexpected exception both sync
functions return `none` without raising; however, maintenance commits may have
fired before the failing panel call, so the pre-call state is only guaranteed
intact when they did not: for `update_remnawave_user`, when the subscription
was not an active row with an elapsed end date (otherwise the committed expiry
demotion survives the failure); for `create_remnawave_user`, when its
validate-and-clean step left the database unchanged (otherwise the committed
identity wipe survives). -/
theorem panel_sync_failure_amended
    (s : Settings) (api : PanelApi) (ambient : String) (now : Int)
    (reset : Bool) (db : Db) (subId : Int) :
    (∀ sub, findById db.subscriptions subId = some sub →
      ¬(sub.status = SubscriptionStatus.ACTIVE ∧ sub.end_date ≤ now) →
      ∀ db', update_remnawave_user s api ambient now reset db subId = (none, db') →
        db' = db) ∧
    ((validate_and_clean_subscription api ambient db subId).2 = db →
      ∀ db', create_remnawave_user s api ambient reset db subId = (none, db') →
        db' = db) := by
  constructor
  · intro sub hfind hdem db' h
    simp only [update_remnawave_user, hfind] at h
    split at h
    · rw [Prod.mk.injEq] at h
      exact h.2.symm
    · split at h
      · rw [Prod.mk.injEq] at h
        exact h.2.symm
      · rw [Prod.mk.injEq] at h
        exact h.2.symm
      · rename_i ruuid sub1 user1 heq
        have hpres := update_resolve_identity_preserves s api db.user sub
          (normalize_tariff_code ambient (some sub.tariff_code)) ruuid sub1 user1 heq
        refine update_remnawave_sync_failure s api now reset db _ ruuid sub1 user1 ?_ db' h
        rw [hpres.1.1, hpres.1.2]
        exact hdem
  · intro hv db' h
    simp only [create_remnawave_user] at h
    split at h
    · rw [Prod.mk.injEq] at h
      exact h.2.symm
    · split at h
      · rw [Prod.mk.injEq] at h
        exact h.2.symm
      · split at h
        · rename_i db0 heq
          have hdb0 : db0 = db := by
            rw [heq] at hv
            exact hv
          subst hdb0
          rw [Prod.mk.injEq] at h
          exact h.2.symm
        · rename_i db0 heq
          have hdb0 : db0 = db := by
            rw [heq] at hv
            exact hv
          subst hdb0
          split at h
          · rw [Prod.mk.injEq] at h
            exact h.2.symm
          · repeat' split at h
            all_goals simp only [Prod.mk.injEq] at h
            all_goals first
              | exact h.2.symm
              | exact h.elim
              | exact absurd h.1 (by simp)

/-- Witness for `panel_sync_failure_amended`: with all lookups succeeding and
the panel mutation calls failing, both functions leave the database unchanged. -/
theorem panel_sync_failure_amended_witness :
    findById wDb.subscriptions 11 = some wActiveRow ∧
      ¬(wActiveRow.status = SubscriptionStatus.ACTIVE ∧ wActiveRow.end_date ≤ 1000) ∧
      (validate_and_clean_subscription wFailApi "standard" wDb 11).2 = wDb ∧
      (update_remnawave_user wSettings wFailApi "standard" 1000 false wDb 11).2 = wDb ∧
      (create_remnawave_user wSettings wFailApi "standard" false wDb 11).2 = wDb :=
  ⟨by decide, by decide, by decide,
    (panel_sync_failure_amended wSettings wFailApi "standard" 1000 false wDb 11).1
      wActiveRow (by decide) (by decide)
      (update_remnawave_user wSettings wFailApi "standard" 1000 false wDb 11).2
      (by decide),
    (panel_sync_failure_amended wSettings wFailApi "standard" 1000 false wDb 11).2
      (by decide)
      (create_remnawave_user wSettings wFailApi "standard" false wDb 11).2
      (by decide)⟩

/-! ## End-to-end purchase scenarios -/

/-- C1 counterexample: in scenario A (trial expiring in 3 days, 30-day standard
purchase at `now = 0`) the resulting end date is 33 days with carry-forward
disabled — not the claimed `now + 30 days` — and 36 days with it enabled — not
the claimed `now + 30 + 3 days` — because the extension already starts from the
trial's future end date and the carry-forward bonus is added on top of that. -/
theorem trial_conversion_cx :
    (scARun false).2.subscriptions.map (fun r => r.end_date) = [33 * 86400] ∧
      (33 * 86400 : Int) ≠ 30 * 86400 ∧
      (scARun true).2.subscriptions.map (fun r => r.end_date) = [36 * 86400] ∧
      (36 * 86400 : Int) ≠ 33 * 86400 := by
  decide

/-- C1 (amended): trial→paid conversion (scenario A): for a user with an active
standard trial expiring in 3 days who confirms a 30-day standard purchase with 0
extra devices, `confirm_purchase` succeeds charging the recomputed price; the
subscription afterwards has `is_trial = false`, status active, and
`end_date = (existing trial end, i.e. now + 3 days) + 30 days`, plus the 3
carried-over days on top when trial carry-forward is enabled; and exactly one
`SUBSCRIPTION_PAYMENT` transaction exists, for the charged amount. -/
theorem trial_conversion_scenario (carry : Bool) :
    (scARun carry).1 = ConfirmOutcome.success 10000 11 ∧
      (scARun carry).2.subscriptions.map (fun r => r.is_trial) = [false] ∧
      (scARun carry).2.subscriptions.map (fun r => r.status) =
        [SubscriptionStatus.ACTIVE] ∧
      (scARun carry).2.subscriptions.map (fun r => r.end_date) =
        [3 * 86400 + 30 * 86400 + (if carry then 3 * 86400 else 0)] ∧
      (scARun carry).2.transactions.filter
          (fun t => t.txType = TransactionType.subscription_payment) =
        [{ user_id := 7, txType := TransactionType.subscription_payment,
            amount_kopeks := 10000 }] := by
  cases carry <;> decide

/-- C8: white traffic top-up (scenario B): for a user with an active white
subscription with `traffic_limit_gb = 50` and `purchased_traffic_gb = 10` who
confirms the purchase of a 20 GB package, `confirm_purchase` succeeds and the
subscription afterwards has `traffic_limit_gb = 70`, `purchased_traffic_gb = 30`,
and its end date still pinned to the far-future unlimited sentinel. -/
theorem white_topup_scenario :
    scBRun.1 = ConfirmOutcome.success 2000 13 ∧
      scBRun.2.subscriptions.map (fun r => r.traffic_limit_gb) = [70] ∧
      scBRun.2.subscriptions.map (fun r => r.purchased_traffic_gb) = [30] ∧
      scBRun.2.subscriptions.map (fun r => r.end_date) = [whiteUnlimitedEndDate] := by
  decide

/-! ## Panel synchronization never touches the ledger -/

theorem validate_preserves_ledger (api : PanelApi) (ambient : String) (db : Db)
    (subId : Int) :
    dbLedger (validate_and_clean_subscription api ambient db subId).2 = dbLedger db := by
  unfold validate_and_clean_subscription
  simp only [dbLedger, commitSubUser]
  repeat' split
  all_goals rfl

theorem update_sync_preserves_ledger (s : Settings) (api : PanelApi) (now : Int)
    (reset : Bool) (db : Db) (tc ruuid : String) (sub1 : Subscription) (user1 : DbUser)
    (hid : user1.id = db.user.id) (hbal : user1.balance_kopeks = db.user.balance_kopeks) :
    dbLedger (update_remnawave_sync s api now reset db tc ruuid sub1 user1).2 =
      dbLedger db := by
  simp only [update_remnawave_sync]
  cases hcall : api.update_user (update_sync_payload s now tc ruuid sub1 user1) with
  | error e =>
      simp only [hcall]
      split <;> simp only [dbLedger, commitSubUser, hid, hbal]
  | ok u =>
      simp only [hcall]
      cases hreset : (if reset then api.reset_user_traffic ruuid else Except.ok ()) with
      | error e =>
          simp only [hreset]
          split <;> simp only [dbLedger, commitSubUser, hid, hbal]
      | ok v =>
          simp only [hreset]
          split <;> simp only [dbLedger, commitSubUser, hid, hbal]

theorem update_preserves_ledger (s : Settings) (api : PanelApi) (ambient : String)
    (now : Int) (reset : Bool) (db : Db) (subId : Int) :
    dbLedger (update_remnawave_user s api ambient now reset db subId).2 = dbLedger db := by
  simp only [update_remnawave_user]
  split
  · rfl
  · split
    · rfl
    · split
      · rfl
      · rfl
      · rename_i ruuid sub1 user1 heq
        have hpres := update_resolve_identity_preserves s api db.user _ _ ruuid sub1
          user1 heq
        exact update_sync_preserves_ledger s api now reset db _ ruuid sub1 user1
          hpres.2.1 hpres.2.2

theorem create_preserves_ledger (s : Settings) (api : PanelApi) (ambient : String)
    (reset : Bool) (db : Db) (subId : Int) :
    dbLedger (create_remnawave_user s api ambient reset db subId).2 = dbLedger db := by
  simp only [create_remnawave_user]
  split
  · rfl
  · split
    · rfl
    · split
      · rename_i db0 heq
        have hv := validate_preserves_ledger api ambient db subId
        rw [heq] at hv
        exact hv
      · rename_i db0 heq
        have hv := validate_preserves_ledger api ambient db subId
        rw [heq] at hv
        split
        · exact hv
        · split
          · exact hv
          · split
            · exact hv
            · split
              · exact hv
              · rw [← hv]
                simp only [dbLedger, commitSubUser]
                split <;> rfl

theorem confirmFinishPre_ledger (sids : List String → List Int) (pr : PricingResult)
    (sub : Subscription) (db : Db) :
    dbLedger (confirmFinishPre sids pr sub db) = dbLedger db := by
  simp only [confirmFinishPre]
  split
  · rfl
  · rfl

theorem confirmFinishSync_ledger (s : Settings) (api : PanelApi) (ambient : String)
    (now : Int) (sub : Subscription) (db : Db) :
    dbLedger (confirmFinishSync s api ambient now sub db).2 = dbLedger db := by
  unfold confirmFinishSync
  by_cases hq : optTruthy sub.remnawave_uuid
  · simp only [hq, if_true]
    split
    · exact update_preserves_ledger s api ambient now s.RESET_TRAFFIC_ON_PAYMENT db sub.id
    · exact (create_preserves_ledger s api ambient s.RESET_TRAFFIC_ON_PAYMENT _ sub.id).trans
        (update_preserves_ledger s api ambient now s.RESET_TRAFFIC_ON_PAYMENT db sub.id)
  · simp only [hq, if_false]
    split
    · exact create_preserves_ledger s api ambient s.RESET_TRAFFIC_ON_PAYMENT db sub.id
    · exact (create_preserves_ledger s api ambient s.RESET_TRAFFIC_ON_PAYMENT _ sub.id).trans
        (create_preserves_ledger s api ambient s.RESET_TRAFFIC_ON_PAYMENT db sub.id)

theorem confirmFinish_spec (s : Settings) (api : PanelApi)
    (sids : List String → List Int) (ambient : String) (now : Int)
    (pr : PricingResult) (sub : Subscription) (db : Db) :
    (confirmFinish s api sids ambient now pr sub db).1 =
      ConfirmOutcome.success pr.final_price sub.id ∧
    (confirmFinish s api sids ambient now pr sub db).2.user.id = db.user.id ∧
    (confirmFinish s api sids ambient now pr sub db).2.user.balance_kopeks =
      db.user.balance_kopeks ∧
    (confirmFinish s api sids ambient now pr sub db).2.transactions =
      db.transactions ++
        [{ user_id := db.user.id, txType := TransactionType.subscription_payment,
            amount_kopeks := pr.final_price }] := by
  have h2 := (confirmFinishPre_ledger sids pr sub db).symm.trans
    (confirmFinishSync_ledger s api ambient now sub
      (confirmFinishPre sids pr sub db)).symm
  -- h2 : dbLedger db = dbLedger (sync (pre db)).2
  simp only [dbLedger, Prod.mk.injEq] at h2
  refine ⟨rfl, ?_, ?_, ?_⟩ <;>
    simp only [confirmFinish, create_transaction, delete_user_cart,
      clear_subscription_checkout_draft]
  · exact h2.1.symm
  · exact h2.2.1.symm
  · rw [← h2.1, ← h2.2.2]

theorem confirmFinish_success_ledger (s : Settings) (api : PanelApi)
    (sids : List String → List Int) (ambient : String) (now : Int)
    (pr : PricingResult) (sub : Subscription) (dbX dbRef : Db) (c sid : Int) (db' : Db)
    (hL : dbLedger dbX = dbLedger dbRef)
    (h : confirmFinish s api sids ambient now pr sub dbX =
      (ConfirmOutcome.success c sid, db')) :
    c = pr.final_price ∧
      db'.user.balance_kopeks = dbRef.user.balance_kopeks ∧
      db'.transactions = dbRef.transactions ++
        [{ user_id := dbRef.user.id, txType := TransactionType.subscription_payment,
            amount_kopeks := pr.final_price }] := by
  obtain ⟨h1, h2, h3, h4⟩ := confirmFinish_spec s api sids ambient now pr sub dbX
  have hfst : (confirmFinish s api sids ambient now pr sub dbX).1 =
      ConfirmOutcome.success c sid := by rw [h]
  have hsnd : (confirmFinish s api sids ambient now pr sub dbX).2 = db' := by rw [h]
  rw [h1] at hfst
  injection hfst with hc hsid
  simp only [dbLedger, Prod.mk.injEq] at hL
  refine ⟨hc.symm, ?_, ?_⟩
  · rw [← hsnd, h3]
    exact hL.2.1
  · rw [← hsnd, h4, hL.1, hL.2.2]

theorem noCountries_pair_ne (dbX db' : Db) (c sid : Int) :
    ¬((ConfirmOutcome.noCountries, dbX) = (ConfirmOutcome.success c sid, db')) := by
  intro h
  rw [Prod.mk.injEq] at h
  exact ConfirmOutcome.noConfusion h.1

theorem confirmCommit_success (s : Settings) (api : PanelApi)
    (sids : List String → List Int) (ambient : String) (now : Int)
    (data : DraftData) (pr : PricingResult) (db : Db) (newSubId : Int)
    (hbal : ¬(db.user.balance_kopeks < pr.final_price)) :
    ∀ c sid : Int, ∀ db' : Db,
      confirmCommit s api sids ambient now data pr db newSubId =
        (ConfirmOutcome.success c sid, db') →
      c = pr.final_price ∧
        db'.user.balance_kopeks = db.user.balance_kopeks - pr.final_price ∧
        db'.transactions = db.transactions ++
          [{ user_id := db.user.id, txType := TransactionType.withdrawal,
              amount_kopeks := pr.final_price },
            { user_id := db.user.id, txType := TransactionType.subscription_payment,
              amount_kopeks := pr.final_price }] := by
  intro c sid db' h
  have hsub : subtract_user_balance db pr.final_price
      (0 < pr.promo_offer_discount_value) =
      (true, { db with
        user := { db.user with
          balance_kopeks := db.user.balance_kopeks - pr.final_price }
        transactions := db.transactions ++
          [{ user_id := db.user.id, txType := TransactionType.withdrawal,
              amount_kopeks := pr.final_price }] }) := by
    unfold subtract_user_balance
    rw [if_neg hbal]
  simp only [confirmCommit, hsub] at h
  repeat' split at h
  all_goals try (exact absurd h (noCountries_pair_ne _ _ _ _))
  all_goals obtain ⟨hc, hbal2, htx⟩ := confirmFinish_success_ledger s api sids ambient now pr _ _ _ c sid db' rfl h
  all_goals refine ⟨hc, hbal2, ?_⟩
  all_goals rw [htx]
  all_goals simp [create_subscription_conversion, List.append_assoc]

/-- C4: insufficient-balance confirm.  For any draft carrying a non-empty tariff
code whose server-side recomputed final price is within drift tolerance but
exceeds the user's balance, `confirm_purchase` reports `insufficientFunds` with
the missing amount equal to (final price − balance), leaves the balance, the
subscription rows and the transaction log unchanged, and persists a saved cart
keyed by the user id containing the draft and the missing amount. -/
theorem insufficient_balance_saves_cart (s : Settings) (promo : PromoEnv)
    (api : PanelApi) (sids : List String → List Int) (ambient : String) (now : Int)
    (data : DraftData) (db : Db) (newSubId : Int) (traw : String) (pr : PricingResult)
    (hre : db.user.restriction_subscription = false)
    (htr : data.tariff_code = some traw)
    (hne : traw ≠ "")
    (hpr : confirmPricing s promo (normalize_tariff_code ambient (some traw)) data =
      Except.ok pr)
    (htol : |pr.final_price - pr.cached_total_price| ≤
      max 500 (pr.final_price * 5 / 100))
    (hbal : db.user.balance_kopeks < pr.final_price) :
    ∀ out : ConfirmOutcome, ∀ db' : Db,
      confirm_purchase s promo api sids ambient now false data db newSubId =
        (out, db') →
      out = ConfirmOutcome.insufficientFunds
          (pr.final_price - db.user.balance_kopeks) ∧
        db'.user.balance_kopeks = db.user.balance_kopeks ∧
        db'.subscriptions = db.subscriptions ∧
        db'.transactions = db.transactions ∧
        db'.savedCarts = db.savedCarts.filter (fun p => p.1 ≠ db.user.id) ++
          [(db.user.id,
            { data := data
              missing_amount := pr.final_price - db.user.balance_kopeks
              user_id := db.user.id })] := by
  have hor := (normalize_nonempty_cases ambient traw hne).symm
  intro out db' h
  simp only [confirm_purchase, hre, htr, hpr, Bool.false_eq_true, if_false,
    if_neg hne, if_neg (not_not_intro hor), save_subscription_checkout_draft,
    save_user_cart] at h
  rw [if_neg (not_lt.mpr htol), if_pos hbal] at h
  injection h with h1 h2
  subst h1
  subst h2
  exact ⟨rfl, rfl, rfl, rfl, rfl⟩

/-- Witness for C4: scenario — a 30-day standard draft priced at 10000 kopeks
against a 500-kopek balance, reporting a 9500-kopek top-up. -/
theorem insufficient_balance_saves_cart_witness :
    c4Db.user.restriction_subscription = false ∧
    scATrialDraft.tariff_code = some "standard" ∧
    ("standard" : String) ≠ "" ∧
    confirmPricing wSettings wPromo
        (normalize_tariff_code "standard" (some "standard")) scATrialDraft =
      Except.ok c4Pr ∧
    |c4Pr.final_price - c4Pr.cached_total_price| ≤
      max 500 (c4Pr.final_price * 5 / 100) ∧
    c4Db.user.balance_kopeks < c4Pr.final_price ∧
    (confirm_purchase wSettings wPromo wOkApi wServerIds "standard" 0 false
        scATrialDraft c4Db 99).1 =
      ConfirmOutcome.insufficientFunds
        (c4Pr.final_price - c4Db.user.balance_kopeks) :=
  ⟨rfl, rfl, by decide, rfl, by decide, by decide,
    (insufficient_balance_saves_cart wSettings wPromo wOkApi wServerIds "standard" 0
        scATrialDraft c4Db 99 "standard" c4Pr rfl rfl (by decide) rfl
        (by decide) (by decide)
        (confirm_purchase wSettings wPromo wOkApi wServerIds "standard" 0 false
          scATrialDraft c4Db 99).1
        (confirm_purchase wSettings wPromo wOkApi wServerIds "standard" 0 false
          scATrialDraft c4Db 99).2 rfl).1⟩

/-- C5: price drift tolerance.  For any draft carrying a non-empty tariff code
that prices successfully, (1) whenever the absolute difference between the
recomputed final price and the cached total exceeds max(500, 5% of the
recomputed price), `confirm_purchase` aborts with `priceDrift` and leaves the
balance, the subscription rows and the transaction log unchanged; (2) whenever
it succeeds, the amount charged is the recomputed final price — never the
cached total — debited from the balance with matching ledger rows. -/
theorem price_drift_tolerance (s : Settings) (promo : PromoEnv)
    (api : PanelApi) (sids : List String → List Int) (ambient : String) (now : Int)
    (data : DraftData) (db : Db) (newSubId : Int) (traw : String) (pr : PricingResult)
    (hre : db.user.restriction_subscription = false)
    (htr : data.tariff_code = some traw)
    (hne : traw ≠ "")
    (hpr : confirmPricing s promo (normalize_tariff_code ambient (some traw)) data =
      Except.ok pr) :
    (max 500 (pr.final_price * 5 / 100) < |pr.final_price - pr.cached_total_price| →
      ∀ out : ConfirmOutcome, ∀ db' : Db,
        confirm_purchase s promo api sids ambient now false data db newSubId =
          (out, db') →
        out = ConfirmOutcome.priceDrift ∧
          db'.user.balance_kopeks = db.user.balance_kopeks ∧
          db'.subscriptions = db.subscriptions ∧
          db'.transactions = db.transactions) ∧
    (∀ c sid : Int, ∀ db' : Db,
      confirm_purchase s promo api sids ambient now false data db newSubId =
        (ConfirmOutcome.success c sid, db') →
      c = pr.final_price ∧
        db'.user.balance_kopeks = db.user.balance_kopeks - pr.final_price ∧
        db'.transactions = db.transactions ++
          [{ user_id := db.user.id, txType := TransactionType.withdrawal,
              amount_kopeks := pr.final_price },
            { user_id := db.user.id, txType := TransactionType.subscription_payment,
              amount_kopeks := pr.final_price }]) := by
  have hor := (normalize_nonempty_cases ambient traw hne).symm
  constructor
  · intro hdrift out db' h
    simp only [confirm_purchase, hre, htr, hpr, Bool.false_eq_true, if_false,
      if_neg hne, if_neg (not_not_intro hor), save_subscription_checkout_draft] at h
    rw [if_pos hdrift] at h
    injection h with h1 h2
    subst h1
    subst h2
    exact ⟨rfl, rfl, rfl, rfl⟩
  · intro c sid db' h
    simp only [confirm_purchase, hre, htr, hpr, Bool.false_eq_true, if_false,
      if_neg hne, if_neg (not_not_intro hor)] at h
    have hproj : (save_subscription_checkout_draft db db.user.id data).user =
      db.user := rfl
    rw [hproj] at h
    by_cases hdrift :
        max 500 (pr.final_price * 5 / 100) < |pr.final_price - pr.cached_total_price|
    · rw [if_pos hdrift] at h
      injection h with h1 h2
      exact ConfirmOutcome.noConfusion h1
    · rw [if_neg hdrift] at h
      by_cases hfund : db.user.balance_kopeks < pr.final_price
      · rw [if_pos hfund] at h
        injection h with h1 h2
        exact ConfirmOutcome.noConfusion h1
      · rw [if_neg hfund] at h
        exact confirmCommit_success s api sids ambient now data pr
          (save_subscription_checkout_draft db db.user.id data) newSubId
          hfund c sid db' h

/-- Witness for C5, part (1): a draft whose cached total (99999) drifted far
from the recomputed 10000-kopek price is rejected with `priceDrift` and the
ledger is untouched. -/
theorem price_drift_tolerance_witness :
    wDb.user.restriction_subscription = false ∧
    c5Draft.tariff_code = some "standard" ∧
    ("standard" : String) ≠ "" ∧
    confirmPricing wSettings wPromo
        (normalize_tariff_code "standard" (some "standard")) c5Draft =
      Except.ok c5Pr ∧
    max 500 (c5Pr.final_price * 5 / 100) <
      |c5Pr.final_price - c5Pr.cached_total_price| ∧
    ((confirm_purchase wSettings wPromo wOkApi wServerIds "standard" 0 false
        c5Draft wDb 99).1 = ConfirmOutcome.priceDrift ∧
      (confirm_purchase wSettings wPromo wOkApi wServerIds "standard" 0 false
          c5Draft wDb 99).2.user.balance_kopeks = wDb.user.balance_kopeks ∧
      (confirm_purchase wSettings wPromo wOkApi wServerIds "standard" 0 false
          c5Draft wDb 99).2.subscriptions = wDb.subscriptions ∧
      (confirm_purchase wSettings wPromo wOkApi wServerIds "standard" 0 false
          c5Draft wDb 99).2.transactions = wDb.transactions) :=
  ⟨rfl, rfl, by decide, rfl, by decide,
    (price_drift_tolerance wSettings wPromo wOkApi wServerIds "standard" 0
        c5Draft wDb 99 "standard" c5Pr rfl rfl (by decide) rfl).1
      (by decide)
      (confirm_purchase wSettings wPromo wOkApi wServerIds "standard" 0 false
        c5Draft wDb 99).1
      (confirm_purchase wSettings wPromo wOkApi wServerIds "standard" 0 false
        c5Draft wDb 99).2 rfl⟩

end Spiderman
